import Mathlib

/-!
Verification development for the meme-generator brand-research backend.

The definitions below are a shallow embedding of the Python modules
`backend/modules/enhanced_research.py`,
`backend/modules/research_sources/{trend_detector,competitor_analyzer,
search_integration,wikipedia_scraper}.py` and
`backend/modules/document_manager.py`.

Network I/O is represented by explicit function parameters (a canned
mapping from query strings to parsed search results, fetch functions,
etc.); everything else is translated directly from the source.  Text is
handled over `List Char`; characters are treated as ASCII for
case-folding and character classes, matching the data these scrapers
process.
-/

namespace MG

abbrev Chars := List Char

/-- Python `str.lower()` (ASCII model). -/
def lowerL (cs : Chars) : Chars := cs.map Char.toLower

def lowerS (s : String) : String := String.mk (lowerL s.data)

def isWsC (c : Char) : Bool := c.isWhitespace

/-- Python membership test `needle in hay` for strings (contiguous substring). -/
def subL (needle hay : Chars) : Bool := hay.tails.any (fun t => needle.isPrefixOf t)

def subS (needle hay : String) : Bool := subL needle.data hay.data

/-- Case-insensitive substring test (Python `re.search` on a literal with IGNORECASE). -/
def subCI (needle hay : Chars) : Bool := subL (lowerL needle) (lowerL hay)

/-- Python `str.strip()`. -/
def stripL (cs : Chars) : Chars :=
  ((cs.dropWhile isWsC).reverse.dropWhile isWsC).reverse

def stripS (s : String) : String := String.mk (stripL s.data)

/-- Python `str.split()` (split on whitespace runs, no empty items);
accumulator-based so the recursion is structural. -/
def splitWsAux (cur : Chars) : Chars → List Chars
  | [] => if cur.isEmpty then [] else [cur.reverse]
  | c :: cs =>
    if isWsC c then
      (if cur.isEmpty then splitWsAux [] cs else cur.reverse :: splitWsAux [] cs)
    else splitWsAux (c :: cur) cs

def splitWsL (cs : Chars) : List Chars := splitWsAux [] cs

def splitWsS (s : String) : List String := (splitWsL s.data).map String.mk

/-- Ordered multiset of weighted phrases, mirroring a Python `Counter` /
insertion-ordered dict with integer values. -/
abbrev PCounter := List (String × Nat)

/-- `d[k] = d.get(k, 0) + n`, keeping dict insertion order. -/
def bumpCounter : PCounter → String → Nat → PCounter
  | [], k, n => [(k, n)]
  | (k0, v) :: rest, k, n =>
    if k0 = k then (k0, v + n) :: rest else (k0, v) :: bumpCounter rest k n

/-- `d.get(k, 0)`. -/
def lookupCounter : PCounter → String → Nat
  | [], _ => 0
  | (k0, v) :: rest, k => if k0 = k then v else lookupCounter rest k

/-- Stable insertion used to model Python `sorted(..., reverse=True)` /
`list.sort(..., reverse=True)`: `x` is placed before the first element it
strictly beats, so ties keep their original order. -/
def insDesc (gt : α → α → Bool) (x : α) : List α → List α
  | [] => [x]
  | y :: ys => if gt x y then x :: y :: ys else y :: insDesc gt x ys

def sortDescBy (gt : α → α → Bool) (l : List α) : List α :=
  l.foldl (fun acc x => insDesc gt x acc) []

/- ### Existence-only regex matching

`Rx` evaluates a pattern at the head of the input, returning the list of
possible rests (in greedy priority order).  It is used to model the
`re.search(pattern, text)` truth tests in `_extract_date_clues`. -/

abbrev Rx := Chars → List Chars

def rxLit (lit : Chars) : Rx := fun cs =>
  if lit.isPrefixOf cs then [cs.drop lit.length] else []

/-- Case-insensitive literal (patterns compiled with `re.IGNORECASE`). -/
def rxLitCI (lit : Chars) : Rx := fun cs =>
  let pre := cs.take lit.length
  if pre.length = lit.length ∧ lowerL pre = lowerL lit then [cs.drop lit.length] else []

def rxSeq (a b : Rx) : Rx := fun cs => (a cs).flatMap b

def rxAlts (l : List Rx) : Rx := fun cs => l.flatMap (fun r => r cs)

def rxOpt (a : Rx) : Rx := fun cs => a cs ++ [cs]

/-- Character class repeated between `lo` and `hi` times (greedy: longest first). -/
def rxCls (p : Char → Bool) (lo hi : Nat) : Rx := fun cs =>
  (List.range (hi + 1 - lo)).filterMap (fun j =>
    let k := hi - j
    let pre := cs.take k
    if lo ≤ k ∧ pre.length = k ∧ pre.all p then some (cs.drop k) else none)

/-- `p*` (greedy: longest first). -/
def rxStar (p : Char → Bool) : Rx := fun cs =>
  let run := (cs.takeWhile p).length
  (List.range (run + 1)).map (fun j => cs.drop (run - j))

def rxMatchesAt (r : Rx) (cs : Chars) : Bool := !(r cs).isEmpty

/-- `re.search(pattern, text)` as a truth value: the pattern matches at some position. -/
def rxSearch (r : Rx) (cs : Chars) : Bool := cs.tails.any (fun t => rxMatchesAt r t)

def isDigitC (c : Char) : Bool := c.isDigit

def isAlphaC (c : Char) : Bool := c.isAlpha

/-- The date-separator class of the first date pattern: slash or dash. -/
def rxDateSep : Rx := rxCls (fun c => c = '/' ∨ c = '-') 1 1

/-- The first date pattern: one or two digits, a date separator, one or
two digits, a date separator, two to four digits. -/
def datePat1 : Rx :=
  rxSeq (rxCls isDigitC 1 2) (rxSeq rxDateSep
    (rxSeq (rxCls isDigitC 1 2) (rxSeq rxDateSep (rxCls isDigitC 2 4))))

def monthNames : List String :=
  ["Jan", "Feb", "Mar", "Apr", "May", "Jun", "Jul", "Aug", "Sep", "Oct", "Nov", "Dec"]

def rxMonth : Rx := rxAlts (monthNames.map (fun m => rxLitCI m.data))

def rxOrdSfx : Rx := rxOpt (rxAlts (["st", "nd", "rd", "th"].map (fun s => rxLitCI s.data)))

/-- `(Jan|...|Dec)[a-z]* (\d{1,2})(?:st|nd|rd|th)?,? (\d{4})` under IGNORECASE. -/
def datePat2 : Rx :=
  rxSeq rxMonth (rxSeq (rxStar isAlphaC) (rxSeq (rxLit [' '])
    (rxSeq (rxCls isDigitC 1 2) (rxSeq rxOrdSfx
      (rxSeq (rxOpt (rxLit [','])) (rxSeq (rxLit [' ']) (rxCls isDigitC 4 4)))))))

/-- `(\d{1,2})(?:st|nd|rd|th)? (Jan|...|Dec)[a-z]* (\d{4})` under IGNORECASE. -/
def datePat3 : Rx :=
  rxSeq (rxCls isDigitC 1 2) (rxSeq rxOrdSfx (rxSeq (rxLit [' '])
    (rxSeq rxMonth (rxSeq (rxStar isAlphaC) (rxSeq (rxLit [' ']) (rxCls isDigitC 4 4))))))

/-- `TrendDetector._extract_date_clues`.  A `datetime` is consumed by the
caller only through `(datetime.now() - d).days`, so the estimate is
represented directly as that day count (`today` is `0`,
`today - timedelta(days=k)` is `k`). -/
def extract_date_clues (text : String) : Option Nat :=
  let cs := text.data
  if rxSearch datePat1 cs ∨ rxSearch datePat2 cs ∨ rxSearch datePat3 cs then some 0
  else if subCI "today".data cs ∨ subCI "tonight".data cs ∨ subCI "this morning".data cs then some 0
  else if subCI "yesterday".data cs then some 1
  else if subCI "this week".data cs then some 3
  else if subCI "last week".data cs then some 7
  else if subCI "this month".data cs then some 15
  else if subCI "last month".data cs then some 30
  else none

/- ### TrendDetector -/

def stop_words : List String :=
  ["a", "about", "above", "after", "again", "against", "all", "am", "an", "and", "any", "are", "as", "at",
   "be", "because", "been", "before", "being", "below", "between", "both", "but", "by", "can", "did", "do",
   "does", "doing", "don", "down", "during", "each", "few", "for", "from", "further", "had", "has", "have",
   "having", "he", "her", "here", "hers", "herself", "him", "himself", "his", "how", "i", "if", "in", "into",
   "is", "it", "its", "itself", "just", "me", "more", "most", "my", "myself", "no", "nor", "not", "now", "of",
   "off", "on", "once", "only", "or", "other", "our", "ours", "ourselves", "out", "over", "own", "s", "same",
   "she", "should", "so", "some", "such", "t", "than", "that", "the", "their", "theirs", "them", "themselves",
   "then", "there", "these", "they", "this", "those", "through", "to", "too", "under", "until", "up", "very",
   "was", "we", "were", "what", "when", "where", "which", "while", "who", "whom", "why", "will", "with",
   "you", "your", "yours", "yourself", "yourselves"]

/-- Python `\w` (ASCII model, as in the scraped text). -/
def isWordC (c : Char) : Bool := c.isAlphanum || c = '_'

/-- `re.sub(r'[^\w\s]', ' ', text.lower())`. -/
def cleanText (text : String) : Chars :=
  (lowerL text.data).map (fun c => if isWordC c ∨ isWsC c then c else ' ')

/-- The `filtered_words` list of `_extract_phrases`. -/
def filteredWords (text : String) : List String :=
  ((splitWsL (cleanText text)).map String.mk).filter
    (fun w => !stop_words.contains w && decide (2 < w.length))

/-- One n-gram `" ".join(filtered_words[i:i+length])`. -/
def ngramAt (ws : List String) (i len : Nat) : String :=
  String.intercalate " " ((ws.drop i).take len)

/-- `TrendDetector._extract_phrases(text, min_length, max_length)`:
phrase lengths run over `range(min_length, min(max_length + 1, len(filtered_words)))`. -/
def extract_phrases (text : String) (min_length max_length : Nat) : PCounter :=
  let filtered := filteredWords text
  let lengths := List.range' min_length (min (max_length + 1) filtered.length - min_length)
  lengths.foldl (fun acc len =>
    (List.range (filtered.length - len + 1)).foldl (fun acc2 i =>
      bumpCounter acc2 (ngramAt filtered i len) 1) acc) []

structure SearchResult where
  title : String
  url : String
  displayed_url : String
  snippet : String
deriving DecidableEq, Repr

structure SourceRef where
  type : String
  url : String
  query : Option String
deriving DecidableEq, Repr

structure Trend where
  phrase : String
  score : Nat
deriving DecidableEq, Repr

structure TrendOut where
  success : Bool
  trends : List Trend
  sources : List SourceRef
  text : String
  error : Option String
deriving DecidableEq, Repr

/-- `result["recency_score"]`: 1 by default, 3 if the date estimate is
under 7 days old, 2 if under 30. -/
def recencyScore (d : Option Nat) : Nat :=
  match d with
  | some days => if days < 7 then 3 else if days < 30 then 2 else 1
  | none => 1

structure TDState where
  all_results : List (SearchResult × Nat)
  sources : List SourceRef
  all_text : String
  trend_phrases : PCounter

def tdQueries (brand_name : String) (category : Option String) : List String :=
  [brand_name ++ " trends", brand_name ++ " latest news", brand_name ++ " innovation"] ++
    (match category with
     | some c => [c ++ " industry trends", c ++ " latest developments", "trends in " ++ c ++ " market"]
     | none => [])

/-- Body of the result loop in `detect_trends` (URL-deduplicated merge,
recency scoring, phrase accumulation). -/
def tdAddResult (q : String) (st : TDState) (r : SearchResult) : TDState :=
  if st.all_results.any (fun pr => pr.1.url == r.url) then st
  else
    let recency := recencyScore (extract_date_clues r.snippet)
    let content := r.title ++ " " ++ r.snippet
    let phrases := extract_phrases content 2 4
    { all_results := st.all_results ++ [(r, recency)]
      sources := st.sources ++ [⟨"search", r.url, some q⟩]
      all_text := st.all_text ++ content ++ " "
      trend_phrases := phrases.foldl (fun acc pc => bumpCounter acc pc.1 (pc.2 * recency)) st.trend_phrases }

/-- The accumulation phase of `detect_trends`; `web` is the canned
network: results of `_search_duckduckgo(query, max_results=5)`. -/
def tdState (web : String → List SearchResult) (brand_name : String) (category : Option String) : TDState :=
  (tdQueries brand_name category).foldl
    (fun st q => ((web q).take 5).foldl (tdAddResult q) st) ⟨[], [], "", []⟩

def exclusionTokens (brand_name : String) (category : Option String) : List String :=
  splitWsS (lowerS brand_name) ++
    (match category with | some c => splitWsS (lowerS c) | none => [])

/-- `phrase_words.issubset(exclusion_set)`. -/
def phraseExcluded (brand_name : String) (category : Option String) (phrase : String) : Bool :=
  (splitWsS phrase).all (fun w => (exclusionTokens brand_name category).contains w)

/-- The filtered trend list of `detect_trends` (before the final `[:10]`). -/
def tdTrends (brand_name : String) (category : Option String) (top_phrases : PCounter) : List Trend :=
  (top_phrases.filter (fun ps => !phraseExcluded brand_name category ps.1 && decide (1 < ps.2))).map
    (fun ps => ⟨ps.1, ps.2⟩)

def tdTrendLines (trends : List Trend) : String :=
  ((trends.take 10).enumFrom 1).foldl
    (fun s p => s ++ toString p.1 ++ ". " ++ p.2.phrase ++ " (Relevance Score: " ++ toString p.2.score ++ ")\n") ""

def tdRecentLines (all_results : List (SearchResult × Nat)) : String :=
  ((sortDescBy (fun a b => decide (b.2 < a.2)) all_results).take 5).foldl
    (fun s pr => s ++ "- " ++ pr.1.title ++ ": " ++ pr.1.snippet ++ "\n") ""

/-- `TrendDetector.detect_trends(brand_name, category)` over a canned
search network (the body raises nothing, so only the `try` branch is
reachable). -/
def detect_trends (web : String → List SearchResult) (brand_name : String)
    (category : Option String) : TrendOut :=
  let st := tdState web brand_name category
  let top_phrases := (sortDescBy (fun a b => decide (b.2 < a.2)) st.trend_phrases).take 15
  let trends := tdTrends brand_name category top_phrases
  let combined_text :=
    "Trend Analysis for " ++ brand_name ++
      (match category with | some c => " in " ++ c ++ " industry" | none => "") ++ ":\n\n" ++
    (if trends.isEmpty then "No clear trends found for " ++ brand_name ++ "\n"
     else "Top Trending Topics:\n" ++ tdTrendLines trends) ++
    (if st.all_results.isEmpty then ""
     else "\nRecent Developments:\n" ++ tdRecentLines st.all_results)
  { success := true
    trends := trends.take 10
    sources := st.sources.take 10
    text := combined_text
    error := none }

/- ### CompetitorAnalyzer

`identify_competitors` mines search-result text with three `re.findall`
rules.  The brand name is interpolated into two of the patterns; as in
the data the analyzer works on, it is treated as literal text.  The
matchers below implement the exact patterns with Python's
leftmost-then-greedy, non-overlapping `findall` semantics. -/

/-- The class `[a-z0-9\s]`. -/
def clsAz09s (c : Char) : Bool :=
  ('a' ≤ c ∧ c ≤ 'z') ∨ ('0' ≤ c ∧ c ≤ '9') ∨ c.isWhitespace

/-- The class `[a-z0-9\s,]`. -/
def clsAz09sc (c : Char) : Bool := clsAz09s c ∨ c = ','

/-- Greedy `\s+` followed by a literal: backtracks from the longest
whitespace run (Python regex semantics). -/
def wsPlusThenLit (lit : Chars) (cs : Chars) : Option Chars :=
  let run := (cs.takeWhile isWsC).length
  ((List.range run).filterMap (fun idx =>
    let j := run - idx
    if lit.isPrefixOf (cs.drop j) then some ((cs.drop j).drop lit.length) else none)).head?

/-- Greedy class run of at least one char, then nothing: the capture and the rest. -/
def capClassRun (p : Char → Bool) (cs : Chars) : Option (Chars × Chars) :=
  let cap := cs.takeWhile p
  if cap.isEmpty then none else some (cap, cs.drop cap.length)

/-- Greedy `\s+` (or any prefix class) then a nonempty capture class run,
backtracking over the prefix-run length, longest first. -/
def runThenCap (pre : Char → Bool) (p : Char → Bool) (cs : Chars) : Option (Chars × Chars) :=
  let run := (cs.takeWhile pre).length
  ((List.range run).filterMap (fun idx =>
    let j := run - idx
    capClassRun p (cs.drop j))).head?

/-- Match attempt at the current position for
`{brand}\s+vs\s+([a-z0-9\s]+)`; returns the captured group and the rest
of the input after the match. -/
def tryVs1 (brandL : Chars) (cs : Chars) : Option (Chars × Chars) :=
  if brandL.isPrefixOf cs then
    match wsPlusThenLit "vs".data (cs.drop brandL.length) with
    | some r2 => runThenCap isWsC clsAz09s r2
    | none => none
  else none

/-- Match attempt for `([a-z0-9\s]+)\s+vs\s+{brand}` (greedy capture with
backtracking so the `\s+vs\s+{brand}` tail still matches). -/
def tryVs2 (brandL : Chars) (cs : Chars) : Option (Chars × Chars) :=
  let run := (cs.takeWhile clsAz09s).length
  ((List.range run).filterMap (fun idx =>
    let k := run - idx
    match wsPlusThenLit "vs".data (cs.drop k) with
    | some r2 =>
      match wsPlusThenLit brandL r2 with
      | some r3 => some (cs.take k, r3)
      | none => none
    | none => none)).head?

/-- Match attempt for `alternatives\s+to[:\s]+([^,\.]+)`. -/
def tryAlt (cs : Chars) : Option (Chars × Chars) :=
  if "alternatives".data.isPrefixOf cs then
    match wsPlusThenLit "to".data (cs.drop 12) with
    | some r2 => runThenCap (fun c => c = ':' ∨ isWsC c) (fun c => ¬(c = ',' ∨ c = '.')) r2
    | none => none
  else none

/-- Match attempt for `([a-z0-9\s,]+(?:and|&)[a-z0-9\s]+)`: the first
class run backtracks longest-first, the alternation tries `and` before
`&`, and the final class run is greedy.  The capture is the whole group. -/
def tryList (cs : Chars) : Option (Chars × Chars) :=
  let run := (cs.takeWhile clsAz09sc).length
  ((List.range run).filterMap (fun idx =>
    let k := run - idx
    let rest := cs.drop k
    let conj :=
      if "and".data.isPrefixOf rest then some ("and".data, rest.drop 3)
      else if "&".data.isPrefixOf rest then some ("&".data, rest.drop 1)
      else none
    match conj with
    | some (cj, r2) =>
      match capClassRun clsAz09s r2 with
      | some (cap2, r3) => some (cs.take k ++ cj ++ cap2, r3)
      | none => none
    | none => none)).head?

/-- `re.findall` scan: leftmost matches, non-overlapping, continuing
after each match.  All patterns here consume at least one character, so
a fuel of the input length is sufficient. -/
def findall (tryAt : Chars → Option (Chars × Chars)) : Nat → Chars → List Chars
  | 0, _ => []
  | _ + 1, [] => []
  | fuel + 1, c :: cs =>
    match tryAt (c :: cs) with
    | some (cap, rest) => cap :: findall tryAt fuel rest
    | none => findall tryAt fuel cs

/-- Delimiter test for `re.split(r',|\sand\s|\s&\s', ...)`, in the
pattern's alternation order; returns the delimiter length. -/
def splitDelimAt (cs : Chars) : Option Nat :=
  match cs with
  | [] => none
  | c :: rest =>
    if c = ',' then some 1
    else if isWsC c ∧ "and".data.isPrefixOf rest ∧ (rest.drop 3).head?.any isWsC then some 5
    else if isWsC c ∧ "&".data.isPrefixOf rest ∧ (rest.drop 1).head?.any isWsC then some 3
    else none

/-- `re.split(r',|\sand\s|\s&\s', s)` (keeps empty segments, like Python). -/
def resplit : Nat → Chars → Chars → List Chars
  | 0, cur, cs => [cur.reverse ++ cs]
  | _ + 1, cur, [] => [cur.reverse]
  | fuel + 1, cur, c :: cs =>
    match splitDelimAt (c :: cs) with
    | some k => cur.reverse :: resplit fuel [] ((c :: cs).drop k)
    | none => resplit fuel (c :: cur) cs

structure Competitor where
  name : String
  mentions : Nat
deriving DecidableEq, Repr

structure CompOut where
  success : Bool
  competitors : List Competitor
  sources : List SourceRef
  text : String
  error : Option String
deriving DecidableEq, Repr

structure CAState where
  all_results : List SearchResult
  sources : List SourceRef
  mentions : PCounter

def caQueries (brand_name : String) (category : Option String) : List String :=
  [brand_name ++ " competitors", brand_name ++ " alternatives", brand_name ++ " vs"] ++
    (match category with
     | some c => ["top " ++ c ++ " brands like " ++ brand_name, "best " ++ c ++ " companies"]
     | none => [])

/-- Add weighted votes for a list of captures: `strip`, drop empties and
the brand itself, add `w` mentions. -/
def caVote (brandLower : String) (w : Nat) (m : PCounter) (caps : List Chars) : PCounter :=
  caps.foldl (fun m cap =>
    let competitor := String.mk (stripL cap)
    if competitor ≠ "" ∧ competitor ≠ brandLower then bumpCounter m competitor w else m) m

/-- Body of the result loop in `identify_competitors`: source dedup by
URL, then the three extraction rules (weights 3 / 2 / 1). -/
def caProcessResult (brandLower : String) (q : String) (st : CAState) (r : SearchResult) : CAState :=
  let st1 :=
    if st.sources.any (fun s => s.url == r.url) then st
    else { st with sources := st.sources ++ [⟨"search", r.url, some q⟩]
                   all_results := st.all_results ++ [r] }
  let content := lowerL (r.title ++ " " ++ r.snippet).data
  let bl := brandLower.data
  let vs_matches := findall (tryVs1 bl) content.length content ++ findall (tryVs2 bl) content.length content
  let m1 := caVote brandLower 3 st1.mentions vs_matches
  let alt_matches := findall tryAlt content.length content
  let m2 := caVote brandLower 2 m1 alt_matches
  let list_matches := findall tryList content.length content
  let m3 := list_matches.foldl (fun m cap =>
    let items := (resplit (cap.length + 1) [] cap).map (fun it => String.mk (stripL it))
    items.foldl (fun m item =>
      if item ≠ "" ∧ item ≠ brandLower then bumpCounter m item 1 else m) m) m2
  { st1 with mentions := m3 }

def caState (web : String → List SearchResult) (brand_name : String) (category : Option String) : CAState :=
  (caQueries brand_name category).foldl
    (fun st q => ((web q).take 5).foldl (caProcessResult (lowerS brand_name) q) st) ⟨[], [], []⟩

def caCompetitorLines (top : List Competitor) : String :=
  (top.enumFrom 1).foldl
    (fun s p => s ++ toString p.1 ++ ". " ++ p.2.name ++ " (Mentions: " ++ toString p.2.mentions ++ ")\n") ""

def caReferenceLines (all_results : List SearchResult) : String :=
  (all_results.take 5).foldl (fun s r => s ++ "- " ++ r.title ++ ": " ++ r.snippet ++ "\n") ""

/-- `CompetitorAnalyzer.identify_competitors(brand_name, category)` over
a canned search network.  `rnd` is the stream of random draws the Python
code consumes for inter-query sleeps and user-agent rotation; with
canned per-query results it cannot influence the output (the body raises
nothing, so only the `try` branch is reachable). -/
def identify_competitors (rnd : Nat → Nat) (web : String → List SearchResult)
    (brand_name : String) (category : Option String) : CompOut :=
  let st := caState web brand_name category
  let sorted_competitors := sortDescBy (fun a b => decide (b.2 < a.2)) st.mentions
  let top_competitors : List Competitor := (sorted_competitors.take 10).map (fun p => ⟨p.1, p.2⟩)
  let combined_text :=
    "Competitor Analysis for " ++ brand_name ++ ":\n\n" ++
    (if top_competitors.isEmpty then "No clear competitors found for " ++ brand_name ++ "\n"
     else "Top Competitors:\n" ++ caCompetitorLines top_competitors) ++
    (if st.all_results.isEmpty then ""
     else "\nCompetitor References:\n" ++ caReferenceLines st.all_results)
  { success := true
    competitors := top_competitors
    sources := st.sources.take 10
    text := combined_text
    error := none }

/- ### DuckDuckGoSearch.search_brand -/

structure QueryFailure where
  query : String
  error : String
deriving DecidableEq, Repr

structure SearchBrandOut where
  success : Bool
  error : Option String
  results : List SearchResult
  text : String
  sources : List SourceRef
  partial_failures : List QueryFailure
deriving DecidableEq, Repr

def sbQueries (brand_name : String) : List String :=
  [brand_name ++ " official website", brand_name ++ " company about",
   brand_name ++ " history company", brand_name ++ " products services",
   brand_name ++ " customers reviews"]

structure SBState where
  all_results : List SearchResult
  sources : List SourceRef
  combined_text : String
  partial_failures : List QueryFailure
  success_count : Nat

/-- Body of the result loop in `search_brand`: URL dedup against the
accumulated `all_results`, appending the source ref and combined text. -/
def sbAddResult (q : String) (st : SBState) (r : SearchResult) : SBState :=
  if st.all_results.any (fun x => x.url == r.url) then st
  else
    { st with all_results := st.all_results ++ [r]
              sources := st.sources ++ [⟨"search", r.url, some q⟩]
              combined_text := st.combined_text ++ "\nTitle: " ++ r.title ++ "\n" ++
                "URL: " ++ r.url ++ "\n" ++ "Snippet: " ++ r.snippet ++ "\n\n" }

/-- One iteration of the query loop in `search_brand`: an empty result
list records a query failure, otherwise `success_count` is incremented
and the results are merged. -/
def sbProcessQuery (web : String → List SearchResult) (st : SBState) (q : String) : SBState :=
  if ((web q).take 3).isEmpty then
    { st with partial_failures := st.partial_failures ++ [⟨q, "DuckDuckGo search failed"⟩] }
  else
    ((web q).take 3).foldl (sbAddResult q) { st with success_count := st.success_count + 1 }

def boolGt (a b : Bool) : Bool := a && !b

/-- The relevance key of `search_brand`'s final sort, as a strict
greater-than on Python's bool triples (`reverse=True`, stable). -/
def sbKeyGt (brand_name : String) (a b : SearchResult) : Bool :=
  let ka1 := subS (lowerS brand_name) (lowerS a.title)
  let ka2 := subS (lowerS brand_name) (lowerS a.url)
  let ka3 := subS "official" (lowerS a.title) || subS "official" (lowerS a.url)
  let kb1 := subS (lowerS brand_name) (lowerS b.title)
  let kb2 := subS (lowerS brand_name) (lowerS b.url)
  let kb3 := subS "official" (lowerS b.title) || subS "official" (lowerS b.url)
  boolGt ka1 kb1 || (ka1 == kb1 && (boolGt ka2 kb2 || (ka2 == kb2 && boolGt ka3 kb3)))

/-- `DuckDuckGoSearch.search_brand(brand_name, max_results)` over a
canned network (`web q` is what `_search_duckduckgo(q, max_results=3)`
parses; an empty list is its degrade-to-empty failure result). -/
def search_brand (web : String → List SearchResult) (brand_name : String)
    (max_results : Nat) : SearchBrandOut :=
  let st := (sbQueries brand_name).foldl (sbProcessQuery web) ⟨[], [], "", [], 0⟩
  let attempts_count := (sbQueries brand_name).length
  let all_results := (sortDescBy (sbKeyGt brand_name) st.all_results).take max_results
  let overall_success :=
    if st.success_count = attempts_count then true
    else if 0 < st.success_count then true
    else false
  let formatted_text :=
    "DuckDuckGo Search Results for " ++ brand_name ++ ":\n\n" ++
    (if all_results.isEmpty then "No search results found for " ++ brand_name ++ ".\n"
     else all_results.foldl (fun s r =>
       s ++ "Title: " ++ r.title ++ "\n" ++ "URL: " ++ r.url ++ "\n" ++
         "Snippet: " ++ r.snippet ++ "\n\n") "") ++
    (if ¬st.partial_failures.isEmpty ∧ st.success_count < attempts_count then
       "\nNote: " ++ toString (attempts_count - st.success_count) ++ " out of " ++
         toString attempts_count ++ " search queries failed, possibly due to rate limiting.\n"
     else "")
  { success := overall_success
    error := if ¬st.partial_failures.isEmpty ∧ overall_success = false then
               some "DuckDuckGo rate limiting" else none
    results := all_results
    text := formatted_text
    sources := st.sources
    partial_failures := st.partial_failures }

/- ### EnhancedResearch.research_brand

The coordinator is a pure function of the outcomes of its source calls.
Each `Except String _` models the corresponding call: `.error e` is a
raised exception with message `e` (caught by the step's `except` arm),
`.ok` the returned dict. -/

structure WikiOut where
  success : Bool
  data : String
  text : String
  url : String
  error : Option String
deriving DecidableEq, Repr

structure WebsiteOut where
  success : Bool
  data : String
  text : String
  url : String
  error : Option String
deriving DecidableEq, Repr

structure Failure where
  source : String
  error : Option String
deriving DecidableEq, Repr

structure Env where
  wiki : Except String WikiOut
  webQuery : Except String SearchBrandOut
  website : String → Except String WebsiteOut
  search : Except String SearchBrandOut
  competitors : Except String CompOut
  trends : Except String TrendOut
  docSave : Option (String → String)

structure RState where
  basic_wikipedia : Option String
  basic_website : Option String
  basic_search_results : Option (List SearchResult)
  competitors : List Competitor
  industry_trends : List Trend
  sources : List SourceRef
  raw_text : String
  partial_failures : List Failure
  anyOk : Bool
deriving Repr

def rInit : RState := ⟨none, none, none, [], [], [], "", [], false⟩

/-- Python `str(x)` on the stored `error` value (`str(None)` is `"None"`). -/
def pyStrOfErr : Option String → String
  | some s => s
  | none => "None"

/-- Step 1: Wikipedia. -/
def erStep1 (wiki : Except String WikiOut) (st : RState) : RState :=
  match wiki with
  | .error e => { st with partial_failures := st.partial_failures ++ [⟨"wikipedia", some e⟩] }
  | .ok w =>
    if w.success then
      { st with basic_wikipedia := some w.data
                sources := st.sources ++ [⟨"wikipedia", w.url, none⟩]
                raw_text := st.raw_text ++ "\n\n=== WIKIPEDIA INFORMATION ===\n" ++ w.text
                anyOk := true }
    else { st with partial_failures := st.partial_failures ++ [⟨"wikipedia", w.error⟩] }

/-- Step 2: scan the exploratory `"{brand} official website"` search for
a likely official URL (a brand token in the lowered URL, none of the
known non-official domains). -/
def officialUrl (webQuery : Except String SearchBrandOut) (brand_name : String) : Option String :=
  match webQuery with
  | .error _ => none
  | .ok wr =>
    (wr.results.find? (fun r =>
      let url := lowerS r.url
      (splitWsS (lowerS brand_name)).any (fun t => subS t url) &&
        !(["wikipedia", "linkedin", "facebook", "twitter"].any (fun t => subS t url)))).map
      (fun r => r.url)

/-- Step 3: direct website scraping of the official URL, when found. -/
def erStep3 (website : String → Except String WebsiteOut) (official : Option String)
    (st : RState) : RState :=
  match official with
  | none => st
  | some u =>
    match website u with
    | .error e => { st with partial_failures := st.partial_failures ++ [⟨"website", some e⟩] }
    | .ok w =>
      if w.success then
        { st with basic_website := some w.data
                  sources := st.sources ++ [⟨"website", w.url, none⟩]
                  raw_text := st.raw_text ++ "\n\n=== WEBSITE INFORMATION ===\n" ++ w.text
                  anyOk := true }
      else { st with partial_failures := st.partial_failures ++ [⟨"website", w.error⟩] }

/-- Step 4: the broader multi-query search pass, with the
rate-limit-and-partial-results degradation branch. -/
def erStep4 (search : Except String SearchBrandOut) (st : RState) : RState :=
  match search with
  | .error e => { st with partial_failures := st.partial_failures ++ [⟨"search", some e⟩] }
  | .ok s =>
    if s.success && !s.results.isEmpty then
      { st with basic_search_results := some s.results
                sources := st.sources ++ s.sources
                raw_text := st.raw_text ++ "\n\n=== SEARCH RESULTS ===\n" ++ s.text
                anyOk := true }
    else
      let st1 :=
        if s.partial_failures.any (fun f => subS "rate limiting" f.error) then
          (if !s.results.isEmpty then
            { st with basic_search_results := some s.results
                      sources := st.sources ++ s.sources
                      raw_text := st.raw_text ++ "\n\n=== SEARCH RESULTS (Partial) ===\n" ++ s.text
                      anyOk := true }
           else st)
        else st
      { st1 with partial_failures := st1.partial_failures ++ [⟨"search", s.error⟩] }

/-- Step 5: competitor analysis (when requested).  An unsuccessful-or-empty
outcome records a failure; a 202-rate-limit error message additionally
appends a placeholder section. -/
def erStep5 (include_competitors : Bool) (comp : Except String CompOut)
    (brand_name : String) (st : RState) : RState :=
  if include_competitors then
    match comp with
    | .error e => { st with partial_failures := st.partial_failures ++ [⟨"competitors", some e⟩] }
    | .ok c =>
      if c.success && !c.competitors.isEmpty then
        { st with competitors := c.competitors
                  sources := st.sources ++ c.sources
                  raw_text := st.raw_text ++ "\n\n=== COMPETITOR ANALYSIS ===\n" ++ c.text
                  anyOk := true }
      else
        let st1 :=
          if subS "DuckDuckGo returned 202 status" (pyStrOfErr c.error) then
            { st with raw_text := st.raw_text ++ "\n\n=== COMPETITOR ANALYSIS ===\n" ++
                "Competitor Analysis for " ++ brand_name ++ ":\n\n" ++
                "No clear competitors found for " ++ brand_name ++ "\n" }
          else st
        { st1 with partial_failures := st1.partial_failures ++ [⟨"competitors", c.error⟩] }
  else st

/-- Step 6: trend detection (when requested), same policy as step 5. -/
def erStep6 (include_trends : Bool) (trends : Except String TrendOut)
    (brand_name : String) (st : RState) : RState :=
  if include_trends then
    match trends with
    | .error e => { st with partial_failures := st.partial_failures ++ [⟨"trends", some e⟩] }
    | .ok t =>
      if t.success && !t.trends.isEmpty then
        { st with industry_trends := t.trends
                  sources := st.sources ++ t.sources
                  raw_text := st.raw_text ++ "\n\n=== INDUSTRY TRENDS ===\n" ++ t.text
                  anyOk := true }
      else
        let st1 :=
          if subS "DuckDuckGo returned 202 status" (pyStrOfErr t.error) then
            { st with raw_text := st.raw_text ++ "\n\n=== INDUSTRY TRENDS ===\n" ++
                "Trend Analysis for " ++ brand_name ++ ":\n\n" ++
                "No clear trends found for " ++ brand_name ++ "\n" }
          else st
        { st1 with partial_failures := st1.partial_failures ++ [⟨"trends", t.error⟩] }
  else st

/-- Python `str.replace(' ', '')`. -/
def removeSpaces (s : String) : String := String.mk (s.data.filter (fun c => c ≠ ' '))

/-- Step 7: last-resort website scrape of a guessed `www.{slug}.com`
domain; never recorded in `partial_failures`. -/
def erStep7 (website : String → Except String WebsiteOut) (brand_name : String)
    (official : Option String) (st : RState) : RState :=
  if !st.anyOk && official.isSome then
    match website ("www." ++ removeSpaces (lowerS brand_name) ++ ".com") with
    | .error _ => st
    | .ok w =>
      if w.success then
        { st with basic_website := some w.data
                  sources := st.sources ++ [⟨"website", w.url, none⟩]
                  raw_text := st.raw_text ++ "\n\n=== WEBSITE INFORMATION ===\n" ++ w.text
                  anyOk := true }
      else st
  else st

/-- Steps 1-7 of `research_brand`, threading the mutable `results` dict
and the `any_source_successful` flag. -/
def researchCore (env : Env) (brand_name : String) (include_competitors include_trends : Bool) :
    RState :=
  let st := erStep1 env.wiki rInit
  let official := officialUrl env.webQuery brand_name
  let st := erStep3 env.website official st
  let st := erStep4 env.search st
  let st := erStep5 include_competitors env.competitors brand_name st
  let st := erStep6 include_trends env.trends brand_name st
  erStep7 env.website brand_name official st

structure Aggregate where
  success : Bool
  brand_name : String
  category : Option String
  country : Option String
  basic_wikipedia : Option String
  basic_website : Option String
  basic_search_results : Option (List SearchResult)
  competitors : List Competitor
  industry_trends : List Trend
  sources : List SourceRef
  raw_text : String
  partial_failures : List Failure
  warning : Option String
  error : Option String
  message : Option String
  document_path : Option String
deriving Repr

/-- `EnhancedResearch.research_brand(brand_name, category, country,
include_competitors, include_trends)`.  Document persistence
(`save_document_text`) is the injected `env.docSave` (absent when the
coordinator holds no document manager). -/
def research_brand (env : Env) (brand_name : String) (category country : Option String)
    (include_competitors include_trends : Bool) : Aggregate :=
  let st := researchCore env brand_name include_competitors include_trends
  if st.anyOk then
    { success := true
      brand_name := brand_name
      category := category
      country := country
      basic_wikipedia := st.basic_wikipedia
      basic_website := st.basic_website
      basic_search_results := st.basic_search_results
      competitors := st.competitors
      industry_trends := st.industry_trends
      sources := st.sources
      raw_text := st.raw_text
      partial_failures := st.partial_failures
      warning :=
        if st.partial_failures.isEmpty then none
        else some ("Some data sources failed: " ++
          String.intercalate ", " (st.partial_failures.map (fun f => f.source)) ++
          ". Results may be incomplete.")
      error := none
      message := none
      document_path := env.docSave.map (fun save => save st.raw_text) }
  else
    { success := false
      brand_name := brand_name
      category := category
      country := country
      basic_wikipedia := st.basic_wikipedia
      basic_website := st.basic_website
      basic_search_results := st.basic_search_results
      competitors := st.competitors
      industry_trends := st.industry_trends
      sources := st.sources
      raw_text := st.raw_text
      partial_failures := st.partial_failures
      warning := none
      error := some "All data sources failed"
      message := some "Unable to research this brand. Please try a different brand name or try again later."
      document_path := none }

/- ### WikipediaScraper

The network boundary: `net` returns the search response of
`_search_wikipedia` (`None` models a raised request exception), `fetch`
returns the article fetch of `scrape_wikipedia` (`.error e` a raised
exception).  HTML parsing (BeautifulSoup selectors and the citation /
whitespace cleanup of `_extract_infobox` / `_extract_sections` /
`_extract_first_paragraph`) happens on fetched data, so the parsed
artifacts are part of the fetched response. -/

/-- Python `str.split(sep)` for a nonempty separator. -/
def pySplitAux (sep : Chars) : Nat → Chars → Chars → List Chars
  | 0, cur, rest => [cur.reverse ++ rest]
  | _ + 1, cur, [] => [cur.reverse]
  | fuel + 1, cur, c :: cs =>
    if sep.isPrefixOf (c :: cs) then
      cur.reverse :: pySplitAux sep fuel [] ((c :: cs).drop sep.length)
    else pySplitAux sep fuel (c :: cur) cs

def pySplit (sep cs : Chars) : List Chars := pySplitAux sep (cs.length + 1) [] cs

/-- `title.replace(" ", "_")` (`_format_wiki_url`). -/
def formatWikiUrl (title : String) : String :=
  String.mk (title.data.map (fun c => if c = ' ' then '_' else c))

/-- `page_title.lower().replace('_', ' ')`. -/
def underscoresToSpaces (s : String) : String :=
  String.mk (s.data.map (fun c => if c = '_' then ' ' else c))

structure WSearchResp where
  status : Nat
  url : String
  results : List (Option String)
deriving Repr

/-- The scan over the first three search results: accept the first whose
title contains the query's first word; a missing `title` attribute makes
`best_match.lower()` raise, which the outer `except` turns into `None`. -/
def wsScan (q0 : String) : List (Option String) → Option String
  | [] => none
  | none :: _ => none
  | some t :: rest =>
    if (splitWsS (lowerS t)).contains q0 then some (formatWikiUrl t) else wsScan q0 rest

/-- `WikipediaScraper._search_wikipedia(query)`.  The 50% redirect check
`matches / len(query_words) >= 0.5` is modelled exactly as
`len <= 2 * matches`; a zero-division (empty query) is the caught
exception path. -/
def search_wikipedia (net : String → Option WSearchResp) (query : String) : Option String :=
  match net query with
  | none => none
  | some resp =>
    if resp.status ≠ 200 then none
    else if subS "/wiki/" resp.url ∧ ¬subS "Special:Search" resp.url then
      match (pySplit "/wiki/".data resp.url.data).get? 1 with
      | none => none
      | some ptChars =>
        let page_title := String.mk ptChars
        let query_words := splitWsS (lowerS query)
        let title_words := splitWsS (underscoresToSpaces (lowerS page_title))
        if query_words.length = 0 then none
        else
          let matchCount := (query_words.filter (fun w => title_words.any (fun t => subS w t))).length
          if query_words.length ≤ 2 * matchCount then some page_title else none
    else
      match resp.results with
      | [] => none
      | rs =>
        match (splitWsS (lowerS query)).head? with
        | none => none
        | some q0 => wsScan q0 (rs.take 3)

structure WLinkInfo where
  text : String
  title : Option String
deriving Repr

structure PageData where
  firstHeading : Option String
  infobox : List (String × String)
  first_paragraph : String
  sections : List (String × String)
deriving Repr

structure WFetchResp where
  status : Nat
  body : String
  links : List WLinkInfo
  page : PageData
deriving Repr

structure WikiScrapeData where
  title : String
  url : String
  summary : String
  infobox : List (String × String)
  sections : List (String × String)
deriving Repr

structure WikiScrapeOut where
  success : Bool
  error : Option String
  data : Option WikiScrapeData
  text : String
  url : String
deriving Repr

/-- A single-quote character, kept out of string literals. -/
def sq : String := String.mk [Char.ofNat 39]

def companyKeywords : List String :=
  ["company", "corporation", "brand", "business", "enterprise", "organization"]

def importantSections : List String :=
  ["History", "Overview", "Products", "Services", "Business"]

/-- The `combined_text` of a successful `scrape_wikipedia`. -/
def wikiCombinedText (title wiki_url summary : String)
    (infobox sections : List (String × String)) : String :=
  "Wikipedia Information for: " ++ title ++ "\n\n" ++
  "URL: " ++ wiki_url ++ "\n\n" ++
  "Summary: " ++ summary ++ "\n\n" ++
  (if infobox.isEmpty then ""
   else "Company Information:\n" ++
     infobox.foldl (fun s kv => s ++ "- " ++ kv.1 ++ ": " ++ kv.2 ++ "\n") "" ++ "\n") ++
  sections.foldl (fun s nc =>
    if importantSections.any (fun im => subS im nc.1) then s ++ nc.1 ++ ":\n" ++ nc.2 ++ "\n\n"
    else s) ""

/-- One pass of the retry loop of `scrape_wikipedia` (`rem` is the number
of remaining attempts, so `retry < max_retries - 1` is `0 < rem - 1`,
i.e. `1 ≤ rem - 1`; with `rem + 1` remaining it is `0 < rem`).  `recurse`
is the recursive `self.scrape_wikipedia(page_title)` call used for
disambiguation descent. -/
def wikiAttempt (net : String → Option WSearchResp) (fetch : String → Except String WFetchResp)
    (recurse : String → WikiScrapeOut) (brand_name : String) : Nat → WikiScrapeOut
  | 0 => ⟨false, some "retry loop exhausted", none, "", ""⟩
  | rem + 1 =>
    match search_wikipedia net brand_name with
    | none =>
      ⟨false, some "No Wikipedia page found", none,
       "No Wikipedia page found for " ++ brand_name ++
         ". Consider checking for alternative spellings or company names.", ""⟩
    | some page_title =>
      let wiki_url := "https://en.wikipedia.org/wiki/" ++ page_title
      match fetch wiki_url with
      | .error e => ⟨false, some e, none, "", ""⟩
      | .ok resp =>
        if resp.status ≠ 200 then
          (if 0 < rem then wikiAttempt net fetch recurse brand_name rem
           else ⟨false, some ("Failed to fetch Wikipedia page: " ++ toString resp.status), none,
                 "Wikipedia information for " ++ brand_name ++ " is currently unavailable.",
                 wiki_url⟩)
        else if subS "may refer to:" resp.body ∨ subS "disambig" resp.body then
          let cand :=
            if 0 < rem then
              resp.links.find? (fun l =>
                companyKeywords.any (fun k => subS k (lowerS l.text)) && l.title.isSome)
            else none
          match cand.bind (fun l => l.title) with
          | some t => recurse t
          | none =>
            ⟨false, some "Disambiguation page found", none,
             "Multiple Wikipedia pages were found for " ++ sq ++ brand_name ++ sq ++
               ". Please specify a more exact name.", wiki_url⟩
        else
          let title := match resp.page.firstHeading with | some t => t | none => page_title
          ⟨true, none,
           some ⟨title, wiki_url, resp.page.first_paragraph, resp.page.infobox, resp.page.sections⟩,
           wikiCombinedText title wiki_url resp.page.first_paragraph resp.page.infobox
             resp.page.sections,
           wiki_url⟩

/-- `WikipediaScraper.scrape_wikipedia(brand_name)`.  The disambiguation
descent re-enters the function with a new page title, which Python does
with unbounded recursion; `fuel` bounds that depth in the embedding. -/
def scrape_wikipedia (net : String → Option WSearchResp) (fetch : String → Except String WFetchResp) :
    Nat → String → WikiScrapeOut
  | 0, _ => ⟨false, some "recursion limit", none, "", ""⟩
  | fuel + 1, brand_name => wikiAttempt net fetch (scrape_wikipedia net fetch fuel) brand_name 3

/- ### DocumentManager

Only the history-list logic is in scope (file-system writes succeed;
`created_at` and `file_size` are inputs of the model). -/

structure DocEntry where
  id : Nat
  filename : String
  path : String
  source_url : String
  category : Option String
  country : Option String
  created_at : String
  file_size : Nat
deriving DecidableEq, Repr

/-- `os.path.basename` (POSIX). -/
def basenameOf (path : String) : String :=
  String.mk ((path.data.reverse.takeWhile (fun c => c ≠ '/')).reverse)

/-- `DocumentManager.add_document`: the new entry gets
`id = len(self.history) + 1` and is appended. -/
def add_document (history : List DocEntry) (doc_path source_url : String)
    (category country : Option String) (created_at : String) (file_size : Nat) :
    DocEntry × List DocEntry :=
  let entry : DocEntry :=
    ⟨history.length + 1, basenameOf doc_path, doc_path, source_url, category, country,
     created_at, file_size⟩
  (entry, history ++ [entry])

/-- `DocumentManager.delete_document` (success path of the file
removal): pop the first entry with the given id. -/
def delete_document (history : List DocEntry) (doc_id : Nat) : Bool × List DocEntry :=
  match history.findIdx? (fun e => e.id == doc_id) with
  | some i => (true, history.eraseIdx i)
  | none => (false, history)

/-- `DocumentManager.get_document`. -/
def get_document (history : List DocEntry) (doc_id : Nat) : Option DocEntry :=
  history.find? (fun e => e.id == doc_id)

/- ### Derived characterizations (read off the merge conditions of the
coordinator's seven steps, used to state the success invariant) -/

/-- Step 1 contributed: Wikipedia returned `success=True`. -/
def wikiOkB (e : Except String WikiOut) : Bool :=
  match e with
  | .ok w => w.success
  | .error _ => false

/-- Step 3 contributed: an official URL was found and its scrape returned `success=True`. -/
def websiteOkB (website : String → Except String WebsiteOut) (official : Option String) : Bool :=
  match official with
  | some u => match website u with | .ok w => w.success | .error _ => false
  | none => false

/-- Step 4 contributed: a regular merge, or the rate-limit partial merge. -/
def searchOkB (e : Except String SearchBrandOut) : Bool :=
  match e with
  | .ok s =>
    (s.success && !s.results.isEmpty) ||
      (s.partial_failures.any (fun f => subS "rate limiting" f.error) && !s.results.isEmpty)
  | .error _ => false

/-- Step 5 contributed: requested, successful and with a nonempty competitor list. -/
def compOkB (include_competitors : Bool) (e : Except String CompOut) : Bool :=
  include_competitors && match e with
  | .ok c => c.success && !c.competitors.isEmpty
  | .error _ => false

/-- Step 6 contributed: requested, successful and with a nonempty trend list. -/
def trendOkB (include_trends : Bool) (e : Except String TrendOut) : Bool :=
  include_trends && match e with
  | .ok t => t.success && !t.trends.isEmpty
  | .error _ => false

/-- Step 7 contributed: the guessed `www.{slug}.com` scrape returned `success=True`. -/
def fallbackOkB (website : String → Except String WebsiteOut) (brand_name : String) : Bool :=
  match website ("www." ++ removeSpaces (lowerS brand_name) ++ ".com") with
  | .ok w => w.success
  | .error _ => false

/-- At least one research source contributed usable text to the aggregate. -/
def contributes (env : Env) (brand_name : String) (include_competitors include_trends : Bool) : Bool :=
  wikiOkB env.wiki ||
  websiteOkB env.website (officialUrl env.webQuery brand_name) ||
  searchOkB env.search ||
  compOkB include_competitors env.competitors ||
  trendOkB include_trends env.trends ||
  ((officialUrl env.webQuery brand_name).isSome && fallbackOkB env.website brand_name)

/-- Modelled from the spec (for the refinement comparison of the
trend-phrase table): a frequency table over n-grams of every length from
1 to 4 words after stop-word removal, as §4.5 and the TrendCandidate
entry describe it. -/
def specTrendPhrases (text : String) : PCounter :=
  let filtered := filteredWords text
  (List.range' 1 (min 4 filtered.length)).foldl (fun acc len =>
    (List.range (filtered.length - len + 1)).foldl (fun acc2 i =>
      bumpCounter acc2 (ngramAt filtered i len) 1) acc) []

/- ### Concrete instances used by witnesses and counterexamples -/

/-- A canned search network with one trend-bearing result. -/
def cexWeb : String → List SearchResult := fun q =>
  if q = "acme trends" then
    [⟨"Solar boom solar boom now", "http://a.com", "a.com", "Published today, the solar boom expands."⟩]
  else []

/-- An environment in which every source call raises. -/
def cexEnvAllFail : Env :=
  ⟨.error "down", .error "down", fun _ => .error "down", .error "down", .error "down",
   .error "down", some (fun _ => "doc.docx")⟩

/-- An environment in which only Wikipedia succeeds (degraded-but-usable run). -/
def cexEnvPartial : Env :=
  ⟨.ok ⟨true, "wd", "wiki text", "http://w.example", none⟩, .error "down",
   fun _ => .error "down", .error "down", .error "down", .error "down",
   some (fun _ => "doc.docx")⟩

/-- An environment in which Wikipedia and the broader search both succeed
and report the same URL. -/
def cexEnvC3 : Env :=
  ⟨.ok ⟨true, "wd", "wiki text", "http://dup.example", none⟩, .error "down",
   fun _ => .error "down",
   .ok ⟨true, none, [⟨"T", "http://dup.example", "dup.example", "snip"⟩], "search text",
        [⟨"search", "http://dup.example", some "acme company about"⟩], []⟩,
   .error "down", .error "down", none⟩

/-- An environment in which the broader search fails with a rate-limiting
partial failure but still carries partial results. -/
def cexEnvC7 : Env :=
  ⟨.error "down", .error "down", fun _ => .error "down",
   .ok ⟨false, some "DuckDuckGo rate limiting",
        [⟨"T", "http://s.example", "s.example", "snip"⟩], "partial search text",
        [⟨"search", "http://s.example", some "acme official website"⟩],
        [⟨"acme company about", "DuckDuckGo search failed by rate limiting"⟩]⟩,
   .error "down", .error "down", none⟩

/-- An environment in which the competitor analysis succeeds with an
empty competitor list and every other source raises. -/
def cexEnvC9 : Env :=
  ⟨.error "down", .error "down", fun _ => .error "down", .error "down",
   .ok ⟨true, [], [], "Competitor Analysis for acme:\n\nNo clear competitors found for acme\n", none⟩,
   .error "down", none⟩

/-- A Wikipedia search response that resolves no page (status 200, no
redirect, no search results). -/
def cexNetNoPage : String → Option WSearchResp := fun _ => some ⟨200, "", []⟩

/-! ## Helper lemmas -/

theorem foldl_pres {α β : Type _} {P : α → Prop} {f : α → β → α}
    (h : ∀ a b, P a → P (f a b)) : ∀ (l : List β) (a : α), P a → P (l.foldl f a)
  | [], _, ha => ha
  | b :: l, a, ha => foldl_pres h l (f a b) (h a b ha)

theorem foldl_pres_mem {α β : Type _} {P : α → Prop} {f : α → β → α} :
    ∀ (l : List β) (_ : ∀ a b, b ∈ l → P a → P (f a b)) (a : α), P a → P (l.foldl f a)
  | [], _, _, ha => ha
  | b :: l, h, a, ha =>
    foldl_pres_mem l (fun a2 b2 hb2 => h a2 b2 (List.mem_cons_of_mem _ hb2)) (f a b)
      (h a b (List.mem_cons_self _ _) ha)

/-- Properties shared by every element of the filtered trend list. -/
theorem tdTrends_mem {brand_name : String} {category : Option String} {tp : PCounter}
    {t : Trend} (h : t ∈ tdTrends brand_name category tp) :
    phraseExcluded brand_name category t.phrase = false ∧ 1 < t.score := by
  rcases List.mem_map.1 h with ⟨ps, hmem, rfl⟩
  rcases List.mem_filter.1 hmem with ⟨-, hpred⟩
  rw [Bool.and_eq_true, Bool.not_eq_true'] at hpred
  exact ⟨hpred.1, of_decide_eq_true hpred.2⟩

theorem detect_trends_trends (web : String → List SearchResult) (brand_name : String)
    (category : Option String) :
    (detect_trends web brand_name category).trends =
      (tdTrends brand_name category
        ((sortDescBy (fun a b => decide (b.2 < a.2)) (tdState web brand_name category).trend_phrases).take 15)).take 10 := rfl

/-! ## Claim theorems -/

/-- C6: against a fixed canned search-result set, the ranked competitor
output of `identify_competitors` is a pure function of the input result
set — the random stream (sleep timing, user-agent rotation) cannot
influence it, so two calls with identical inputs agree exactly. -/
theorem c6_identify_competitors_pure :
    ∀ (rnd1 rnd2 : Nat → Nat) (web : String → List SearchResult) (brand_name : String)
      (category : Option String),
      identify_competitors rnd1 web brand_name category =
        identify_competitors rnd2 web brand_name category :=
  fun _ _ _ _ _ => rfl

/-- C8: `add_document` assigns `id = len(history) + 1` to the new entry,
and consequently ids are not globally unique: add, add, delete the first,
add again yields two live entries with id 2. -/
theorem c8_add_document_id :
    (∀ (history : List DocEntry) (doc_path source_url : String)
       (category country : Option String) (created_at : String) (file_size : Nat),
      (add_document history doc_path source_url category country created_at file_size).1.id =
        history.length + 1) ∧
    ((add_document (delete_document (add_document (add_document [] "a.docx" "u" none none "t" 0).2
        "b.docx" "u" none none "t" 0).2 1).2 "c.docx" "u" none none "t" 0).2.map
        (fun e => e.id) = [2, 2]) := by
  constructor
  · intro history doc_path source_url category country created_at file_size
    rfl
  · rfl

/-- C10: every trend returned by `detect_trends` has weighted score
strictly greater than 1, and at most 10 trends are returned. -/
theorem c10_trends_bounded :
    ∀ (web : String → List SearchResult) (brand_name : String) (category : Option String),
      (detect_trends web brand_name category).trends.length ≤ 10 ∧
        ∀ t ∈ (detect_trends web brand_name category).trends, 1 < t.score := by
  intro web brand_name category
  constructor
  · rw [detect_trends_trends]
    exact List.length_take_le 10 _
  · intro t ht
    rw [detect_trends_trends] at ht
    exact (tdTrends_mem (List.mem_of_mem_take ht)).2

theorem c10_trends_bounded_witness :
    ((⟨"solar boom", 9⟩ : Trend) ∈ (detect_trends cexWeb "acme" none).trends) ∧
      1 < (9 : Nat) := by
  refine ⟨by decide, ?_⟩
  exact (c10_trends_bounded cexWeb "acme" none).2 ⟨"solar boom", 9⟩ (by decide)

/-- C4: no phrase returned by `detect_trends` has a word set that is a
subset of the union of the lower-cased whitespace-split brand-name and
category tokens. -/
theorem c4_no_trend_is_brand_or_category :
    ∀ (web : String → List SearchResult) (brand_name : String) (category : Option String)
      (t : Trend), t ∈ (detect_trends web brand_name category).trends →
      ((splitWsS t.phrase).all
        (fun w => (exclusionTokens brand_name category).contains w)) = false := by
  intro web brand_name category t ht
  rw [detect_trends_trends] at ht
  have h := (tdTrends_mem (List.mem_of_mem_take ht)).1
  simpa [phraseExcluded] using h

theorem c4_no_trend_is_brand_or_category_witness :
    ((⟨"solar boom", 9⟩ : Trend) ∈ (detect_trends cexWeb "acme" none).trends) ∧
      ((splitWsS "solar boom").all
        (fun w => (exclusionTokens "acme" none).contains w)) = false :=
  ⟨by decide, c4_no_trend_is_brand_or_category cexWeb "acme" none ⟨"solar boom", 9⟩ (by decide)⟩

/-- C2 (counterexample): when no Wikipedia page resolves, `scrape_wikipedia`
does return `success=False` but its `text` is a non-empty explanatory
message, not the empty string the claim requires. -/
theorem c2_cex_text_not_empty :
    (scrape_wikipedia cexNetNoPage (fun _ => .error "net down") 5 "acme").success = false ∧
      (scrape_wikipedia cexNetNoPage (fun _ => .error "net down") 5 "acme").text ≠ "" := by
  exact ⟨rfl, by decide⟩

/-- C2 (amended): for every brand name whose Wikipedia search resolves no
page, `scrape_wikipedia` returns (without raising) `success=False`, error
`"No Wikipedia page found"`, the explanatory non-empty text
`"No Wikipedia page found for {brand}. Consider checking for alternative
spellings or company names."`, empty data and empty url. -/
theorem c2_no_page_result :
    ∀ (net : String → Option WSearchResp) (fetch : String → Except String WFetchResp)
      (fuel : Nat) (brand_name : String),
      search_wikipedia net brand_name = none → 0 < fuel →
      scrape_wikipedia net fetch fuel brand_name =
        ⟨false, some "No Wikipedia page found", none,
         "No Wikipedia page found for " ++ brand_name ++
           ". Consider checking for alternative spellings or company names.", ""⟩ := by
  intro net fetch fuel brand_name h hf
  cases fuel with
  | zero => exact absurd hf (by simp)
  | succ n => simp [scrape_wikipedia, wikiAttempt, h]

theorem c2_no_page_result_witness :
    search_wikipedia cexNetNoPage "acme" = none ∧
      scrape_wikipedia cexNetNoPage (fun _ => .error "net down") 1 "acme" =
        ⟨false, some "No Wikipedia page found", none,
         "No Wikipedia page found for acme. Consider checking for alternative spellings or company names.",
         ""⟩ :=
  ⟨rfl, by
    have h := c2_no_page_result cexNetNoPage (fun _ => .error "net down") 1 "acme" rfl (by decide)
    simpa using h⟩

/-! ## Counter lemmas (for the trend-phrase table) -/

theorem keys_bump_subset {k : String} {n : Nat} {p : String} :
    ∀ {acc : PCounter}, p ∈ (bumpCounter acc k n).map Prod.fst →
      p ∈ acc.map Prod.fst ∨ p = k := by
  intro acc
  induction acc with
  | nil =>
    intro h
    simp [bumpCounter] at h
    exact Or.inr h
  | cons hd tl ih =>
    obtain ⟨k0, v⟩ := hd
    intro h
    by_cases hk : k0 = k
    · subst hk
      simp [bumpCounter] at h
      simpa using Or.inl h
    · simp only [bumpCounter, if_neg hk, List.map_cons, List.mem_cons] at h
      rcases h with h | h
      · exact Or.inl (by simp [h])
      · rcases ih h with h2 | h2
        · exact Or.inl (List.mem_cons_of_mem _ h2)
        · exact Or.inr h2

theorem nodup_keys_bump {k : String} {n : Nat} :
    ∀ {acc : PCounter}, (acc.map Prod.fst).Nodup →
      ((bumpCounter acc k n).map Prod.fst).Nodup := by
  intro acc
  induction acc with
  | nil => intro _; simp [bumpCounter]
  | cons hd tl ih =>
    obtain ⟨k0, v⟩ := hd
    intro h
    rw [List.map_cons, List.nodup_cons] at h
    by_cases hk : k0 = k
    · subst hk
      simpa [bumpCounter, List.nodup_cons] using h
    · rw [bumpCounter, if_neg hk, List.map_cons, List.nodup_cons]
      refine ⟨?_, ih h.2⟩
      intro hmem
      rcases keys_bump_subset hmem with h2 | h2
      · exact h.1 h2
      · exact hk h2

theorem lookup_bump {p k : String} {n : Nat} :
    ∀ (acc : PCounter), lookupCounter (bumpCounter acc k n) p =
      lookupCounter acc p + (if p = k then n else 0) := by
  intro acc
  induction acc with
  | nil =>
    by_cases hp : p = k
    · simp [bumpCounter, lookupCounter, hp]
    · have hk : ¬ k = p := fun h => hp h.symm
      simp [bumpCounter, lookupCounter, hp, hk]
  | cons hd tl ih =>
    obtain ⟨k0, v⟩ := hd
    by_cases hk : k0 = k
    · subst hk
      by_cases hp : k0 = p
      · subst hp
        simp [bumpCounter, lookupCounter]
      · have hp2 : ¬ p = k0 := fun h => hp h.symm
        simp [bumpCounter, lookupCounter, hp, hp2]
    · by_cases hp : k0 = p
      · subst hp
        have hpk : ¬ k0 = k := hk
        simp [bumpCounter, lookupCounter, hk, hpk]
      · simp [bumpCounter, lookupCounter, hk, hp, ih]

theorem sum_ifs_zero {p : String} :
    ∀ {c : PCounter}, p ∉ c.map Prod.fst →
      (c.map (fun kv => if p = kv.1 then kv.2 else 0)).sum = 0 := by
  intro c
  induction c with
  | nil => intro _; simp
  | cons hd tl ih =>
    intro h
    rw [List.map_cons, List.mem_cons] at h
    push_neg at h
    simp [h.1, ih h.2]

theorem lookup_eq_sum {p : String} :
    ∀ {c : PCounter}, (c.map Prod.fst).Nodup →
      lookupCounter c p = (c.map (fun kv => if p = kv.1 then kv.2 else 0)).sum := by
  intro c
  induction c with
  | nil => intro _; simp [lookupCounter]
  | cons hd tl ih =>
    obtain ⟨k0, v⟩ := hd
    intro h
    rw [List.map_cons, List.nodup_cons] at h
    by_cases hp : k0 = p
    · subst hp
      simp [lookupCounter, sum_ifs_zero h.1]
    · have hp2 : ¬ p = k0 := fun hh => hp hh.symm
      simp [lookupCounter, hp, hp2, ih h.2]

theorem lookup_foldl_bump {p : String} (g : String × Nat → Nat) :
    ∀ (l : PCounter) (init : PCounter),
      lookupCounter (l.foldl (fun acc pc => bumpCounter acc pc.1 (g pc)) init) p =
        lookupCounter init p + (l.map (fun pc => if p = pc.1 then g pc else 0)).sum := by
  intro l
  induction l with
  | nil => intro init; simp
  | cons pc tl ih =>
    intro init
    rw [List.foldl_cons, ih, lookup_bump, List.map_cons, List.sum_cons, Nat.add_assoc]

theorem sum_map_ite_mul {p : String} (w : Nat) :
    ∀ (l : PCounter),
      (l.map (fun pc => if p = pc.1 then pc.2 * w else 0)).sum =
        (l.map (fun pc => if p = pc.1 then pc.2 else 0)).sum * w := by
  intro l
  induction l with
  | nil => simp
  | cons pc tl ih =>
    rw [List.map_cons, List.map_cons, List.sum_cons, List.sum_cons, ih]
    by_cases hp : p = pc.1 <;> simp [hp, Nat.add_mul]

theorem extract_phrases_keys_nodup (text : String) (min_length max_length : Nat) :
    ((extract_phrases text min_length max_length).map Prod.fst).Nodup := by
  simp only [extract_phrases]
  refine foldl_pres (P := fun acc : PCounter => (acc.map Prod.fst).Nodup) ?_ _ _ (by simp)
  intro a len ha
  exact foldl_pres (P := fun acc : PCounter => (acc.map Prod.fst).Nodup)
    (fun a2 i h2 => nodup_keys_bump h2) _ _ ha

/-- Provenance of every key of the default (2,4) phrase table: an n-gram
of 2 to 4 consecutive filtered words. -/
theorem extract_phrases_key_shape (text : String) {p : String}
    (h : p ∈ ((extract_phrases text 2 4).map Prod.fst)) :
    ∃ len i, 2 ≤ len ∧ len ≤ 4 ∧ len < (filteredWords text).length ∧
      i + len ≤ (filteredWords text).length ∧ p = ngramAt (filteredWords text) i len := by
  simp only [extract_phrases] at h
  refine foldl_pres_mem (P := fun acc : PCounter => ∀ q, q ∈ acc.map Prod.fst →
      ∃ len i, 2 ≤ len ∧ len ≤ 4 ∧ len < (filteredWords text).length ∧
        i + len ≤ (filteredWords text).length ∧ q = ngramAt (filteredWords text) i len)
    _ ?_ _ (by simp) p h
  intro a len hlen ha
  refine foldl_pres_mem (P := fun acc : PCounter => ∀ q, q ∈ acc.map Prod.fst →
      ∃ len i, 2 ≤ len ∧ len ≤ 4 ∧ len < (filteredWords text).length ∧
        i + len ≤ (filteredWords text).length ∧ q = ngramAt (filteredWords text) i len)
    _ ?_ _ ha
  intro a2 i hi ha2 q hq
  rcases keys_bump_subset hq with h2 | h2
  · exact ha2 q h2
  · have hlen2 := List.mem_range'_1.mp hlen
    have hi2 := List.mem_range.mp hi
    refine ⟨len, i, hlen2.1, ?_, ?_, ?_, h2⟩ <;> omega

/-- Preservation of the table/recency invariant by one result merge. -/
theorem tdAddResult_pres (p q : String) (st : TDState) (r : SearchResult)
    (hP : (lookupCounter st.trend_phrases p =
        (st.all_results.map (fun pr =>
          pr.2 * lookupCounter (extract_phrases (pr.1.title ++ " " ++ pr.1.snippet) 2 4) p)).sum) ∧
      ∀ pr ∈ st.all_results, pr.2 = recencyScore (extract_date_clues pr.1.snippet)) :
    (lookupCounter (tdAddResult q st r).trend_phrases p =
        ((tdAddResult q st r).all_results.map (fun pr =>
          pr.2 * lookupCounter (extract_phrases (pr.1.title ++ " " ++ pr.1.snippet) 2 4) p)).sum) ∧
      ∀ pr ∈ (tdAddResult q st r).all_results,
        pr.2 = recencyScore (extract_date_clues pr.1.snippet) := by
  rw [tdAddResult]
  by_cases hdup : st.all_results.any (fun pr => pr.1.url == r.url)
  · simpa [hdup] using hP
  · rw [if_neg hdup]
    constructor
    · rw [lookup_foldl_bump (fun pc => pc.2 * recencyScore (extract_date_clues r.snippet)),
        hP.1, sum_map_ite_mul,
        ← lookup_eq_sum (extract_phrases_keys_nodup (r.title ++ " " ++ r.snippet) 2 4)]
      simp [Nat.mul_comm]
    · intro pr hpr
      rcases List.mem_append.mp hpr with h2 | h2
      · exact hP.2 pr h2
      · simp at h2
        subst h2
        rfl

/-- The accumulated trend-phrase table and recency weights of `tdState`:
the weight stored with each deduplicated result is its recency score, and
the table value at any phrase is the recency-weighted sum of that
phrase's per-result counts. -/
theorem tdState_table (web : String → List SearchResult) (brand_name : String)
    (category : Option String) (p : String) :
    (lookupCounter (tdState web brand_name category).trend_phrases p =
      ((tdState web brand_name category).all_results.map (fun pr =>
        pr.2 * lookupCounter (extract_phrases (pr.1.title ++ " " ++ pr.1.snippet) 2 4) p)).sum) ∧
    ∀ pr ∈ (tdState web brand_name category).all_results,
      pr.2 = recencyScore (extract_date_clues pr.1.snippet) := by
  simp only [tdState]
  refine foldl_pres (P := fun st : TDState =>
    (lookupCounter st.trend_phrases p =
      (st.all_results.map (fun pr =>
        pr.2 * lookupCounter (extract_phrases (pr.1.title ++ " " ++ pr.1.snippet) 2 4) p)).sum) ∧
    ∀ pr ∈ st.all_results, pr.2 = recencyScore (extract_date_clues pr.1.snippet))
    ?_ _ _ (by simp [lookupCounter])
  intro st q
  exact foldl_pres (P := fun st : TDState =>
    (lookupCounter st.trend_phrases p =
      (st.all_results.map (fun pr =>
        pr.2 * lookupCounter (extract_phrases (pr.1.title ++ " " ++ pr.1.snippet) 2 4) p)).sum) ∧
    ∀ pr ∈ st.all_results, pr.2 = recencyScore (extract_date_clues pr.1.snippet))
    (fun st2 r hP => tdAddResult_pres p q st2 r hP) _ _

/-- C5 (counterexample): the table `detect_trends` builds contains no
single-word phrases.  On the text `"solar boom growth"` the spec's 1-4
word table contains the 1-gram `"solar"`, the code's table does not; the
live table accumulated by `detect_trends` from `cexWeb` likewise has the
2-gram `"solar boom"` but no entry for the single word `"solar"`. -/
theorem c5_cex_no_one_grams :
    lookupCounter (specTrendPhrases "solar boom growth") "solar" = 1 ∧
    lookupCounter (extract_phrases "solar boom growth" 2 4) "solar" = 0 ∧
    lookupCounter (tdState cexWeb "acme" none).trend_phrases "solar" = 0 ∧
    lookupCounter (tdState cexWeb "acme" none).trend_phrases "solar boom" = 9 := by
  refine ⟨by decide, by decide, by decide, by decide⟩

/-- C5 (amended): the trend-phrase frequency table is over n-grams of 2
to 4 words (also strictly fewer than the number of filtered words) -
never 1-grams - and each n-gram's increment is multiplied by the recency
multiplier `recencyScore` (3 if the estimated age is under 7 days, 2 if
under 30, else 1): the table's value at any phrase is the sum over the
merged results of that multiplier times the phrase count of the result's
title+snippet text. -/
theorem c5_table_shape_and_recency :
    (∀ (text : String) (pv : String × Nat), pv ∈ extract_phrases text 2 4 →
      ∃ len i, 2 ≤ len ∧ len ≤ 4 ∧ len < (filteredWords text).length ∧
        i + len ≤ (filteredWords text).length ∧
        pv.1 = ngramAt (filteredWords text) i len) ∧
    (∀ (web : String → List SearchResult) (brand_name : String) (category : Option String)
       (p : String),
      lookupCounter (tdState web brand_name category).trend_phrases p =
        ((tdState web brand_name category).all_results.map (fun pr =>
          pr.2 * lookupCounter (extract_phrases (pr.1.title ++ " " ++ pr.1.snippet) 2 4) p)).sum) ∧
    (∀ (web : String → List SearchResult) (brand_name : String) (category : Option String)
       (pr : SearchResult × Nat), pr ∈ (tdState web brand_name category).all_results →
      pr.2 = recencyScore (extract_date_clues pr.1.snippet)) := by
  refine ⟨?_, ?_, ?_⟩
  · intro text pv hpv
    exact extract_phrases_key_shape text (List.mem_map_of_mem Prod.fst hpv)
  · intro web brand_name category p
    exact (tdState_table web brand_name category p).1
  · intro web brand_name category pr hpr
    exact (tdState_table web brand_name category "").2 pr hpr

theorem c5_table_shape_and_recency_witness :
    (("solar boom", 3) ∈ extract_phrases "Solar boom solar boom now Published today, the solar boom expands." 2 4) ∧
    (∃ len i, 2 ≤ len ∧ len ≤ 4 ∧
      len < (filteredWords "Solar boom solar boom now Published today, the solar boom expands.").length ∧
      i + len ≤ (filteredWords "Solar boom solar boom now Published today, the solar boom expands.").length ∧
      "solar boom" = ngramAt (filteredWords "Solar boom solar boom now Published today, the solar boom expands.") i len) :=
  ⟨by decide,
   c5_table_shape_and_recency.1 "Solar boom solar boom now Published today, the solar boom expands."
     ("solar boom", 3) (by decide)⟩

/-! ## URL-dedup lemmas (claim C3) -/

theorem nodup_snoc {α : Type _} {l : List α} {a : α} (h : l.Nodup) (ha : a ∉ l) :
    (l ++ [a]).Nodup := by
  induction l with
  | nil => simp
  | cons b t ih =>
    rw [List.nodup_cons] at h
    rw [List.cons_append, List.nodup_cons]
    refine ⟨?_, ih h.2 (fun hx => ha (List.mem_cons_of_mem _ hx))⟩
    intro hmem
    rcases List.mem_append.mp hmem with h2 | h2
    · exact h.1 h2
    · simp at h2
      exact ha (by simp [h2])

theorem not_mem_map_of_any_false {α : Type _} {f : α → String} {l : List α} {u : String}
    (h : l.any (fun x => f x == u) = false) : u ∉ l.map f := by
  intro hmem
  rcases List.mem_map.1 hmem with ⟨x, hx, hfx⟩
  rw [List.any_eq_false] at h
  exact h x hx (by simp [hfx])

theorem search_brand_sources_nodup (web : String → List SearchResult) (brand_name : String)
    (max_results : Nat) :
    ((search_brand web brand_name max_results).sources.map (fun s => s.url)).Nodup := by
  have hstep : ∀ (st : SBState) (q : String),
      ((st.sources.map (fun s => s.url) = st.all_results.map (fun r => r.url)) ∧
        (st.sources.map (fun s => s.url)).Nodup) →
      (((sbProcessQuery web st q).sources.map (fun s => s.url) =
          (sbProcessQuery web st q).all_results.map (fun r => r.url)) ∧
        ((sbProcessQuery web st q).sources.map (fun s => s.url)).Nodup) := by
    intro st q hP
    rw [sbProcessQuery]
    by_cases hres : ((web q).take 3).isEmpty
    · simpa [hres] using hP
    · rw [if_neg hres]
      refine foldl_pres (P := fun st : SBState =>
        (st.sources.map (fun s => s.url) = st.all_results.map (fun r => r.url)) ∧
          (st.sources.map (fun s => s.url)).Nodup) ?_ _ _ ?_
      · intro st2 r hP2
        rw [sbAddResult]
        by_cases hdup : st2.all_results.any (fun x => x.url == r.url)
        · simpa [hdup] using hP2
        · rw [if_neg hdup]
          have hnm : r.url ∉ st2.sources.map (fun s => s.url) := by
            rw [hP2.1]
            exact not_mem_map_of_any_false (eq_false_of_ne_true hdup)
          constructor
          · simp [hP2.1]
          · simpa using nodup_snoc hP2.2 hnm
      · simpa using hP
  have main := foldl_pres (P := fun st : SBState =>
      (st.sources.map (fun s => s.url) = st.all_results.map (fun r => r.url)) ∧
        (st.sources.map (fun s => s.url)).Nodup)
    hstep (sbQueries brand_name) (⟨[], [], "", [], 0⟩ : SBState) (by simp)
  simpa only [search_brand] using main.2

theorem identify_competitors_sources_nodup (rnd : Nat → Nat)
    (web : String → List SearchResult) (brand_name : String) (category : Option String) :
    ((identify_competitors rnd web brand_name category).sources.map (fun s => s.url)).Nodup := by
  have hstep : ∀ (st : CAState) (q : String),
      (st.sources.map (fun s => s.url)).Nodup →
      ((((web q).take 5).foldl (caProcessResult (lowerS brand_name) q) st).sources.map
        (fun s => s.url)).Nodup := by
    intro st q hP
    refine foldl_pres (P := fun st : CAState => (st.sources.map (fun s => s.url)).Nodup)
      ?_ _ _ hP
    intro st2 r hP2
    rw [caProcessResult]
    by_cases hdup : st2.sources.any (fun s => s.url == r.url)
    · simpa [hdup] using hP2
    · rw [if_neg hdup]
      have hnm : r.url ∉ st2.sources.map (fun s => s.url) :=
        not_mem_map_of_any_false (eq_false_of_ne_true hdup)
      simpa using nodup_snoc hP2 hnm
  have main := foldl_pres (P := fun st : CAState => (st.sources.map (fun s => s.url)).Nodup)
    hstep (caQueries brand_name category) (⟨[], [], []⟩ : CAState) (by simp)
  have htake : ((identify_competitors rnd web brand_name category).sources.map
      (fun s => s.url)) =
      ((((caQueries brand_name category).foldl
        (fun st q => ((web q).take 5).foldl (caProcessResult (lowerS brand_name) q) st)
        (⟨[], [], []⟩ : CAState)).sources.map (fun s => s.url)).take 10) := by
    simp only [identify_competitors, caState, List.map_take]
  rw [htake]
  exact main.sublist (List.take_sublist 10 _)

theorem detect_trends_sources_nodup (web : String → List SearchResult) (brand_name : String)
    (category : Option String) :
    ((detect_trends web brand_name category).sources.map (fun s => s.url)).Nodup := by
  have hstep : ∀ (st : TDState) (q : String),
      ((st.sources.map (fun s => s.url) = st.all_results.map (fun pr => pr.1.url)) ∧
        (st.sources.map (fun s => s.url)).Nodup) →
      (((((web q).take 5).foldl (tdAddResult q) st).sources.map (fun s => s.url) =
          (((web q).take 5).foldl (tdAddResult q) st).all_results.map (fun pr => pr.1.url)) ∧
        ((((web q).take 5).foldl (tdAddResult q) st).sources.map (fun s => s.url)).Nodup) := by
    intro st q hP
    refine foldl_pres (P := fun st : TDState =>
      (st.sources.map (fun s => s.url) = st.all_results.map (fun pr => pr.1.url)) ∧
        (st.sources.map (fun s => s.url)).Nodup) ?_ _ _ hP
    intro st2 r hP2
    rw [tdAddResult]
    by_cases hdup : st2.all_results.any (fun pr => pr.1.url == r.url)
    · simpa [hdup] using hP2
    · rw [if_neg hdup]
      have hnm : r.url ∉ st2.sources.map (fun s => s.url) := by
        rw [hP2.1]
        exact not_mem_map_of_any_false (l := st2.all_results) (f := fun pr => pr.1.url)
          (eq_false_of_ne_true hdup)
      constructor
      · simp [hP2.1]
      · simpa using nodup_snoc hP2.2 hnm
  have main := foldl_pres (P := fun st : TDState =>
      (st.sources.map (fun s => s.url) = st.all_results.map (fun pr => pr.1.url)) ∧
        (st.sources.map (fun s => s.url)).Nodup)
    hstep (tdQueries brand_name category) (⟨[], [], "", []⟩ : TDState) (by simp)
  have htake : ((detect_trends web brand_name category).sources.map (fun s => s.url)) =
      (((tdState web brand_name category).sources.map (fun s => s.url)).take 10) := by
    simp only [detect_trends, List.map_take]
  rw [htake]
  have main2 : (((tdState web brand_name category).sources.map (fun s => s.url))).Nodup := by
    simpa only [tdState] using main.2
  exact main2.sublist (List.take_sublist 10 _)

/-- C3 (counterexample): the aggregate's `sources` list can contain two
entries with the same URL — URL dedup happens only inside each component,
not when the coordinator merges the components. -/
theorem c3_cex_duplicate_aggregate_urls :
    ((research_brand cexEnvC3 "acme" none none true true).sources.map (fun s => s.url)) =
      ["http://dup.example", "http://dup.example"] ∧
    ¬ ((research_brand cexEnvC3 "acme" none none true true).sources.map
        (fun s => s.url)).Nodup := by
  exact ⟨by decide, by decide⟩

/-- C3 (amended): search-result URLs are deduplicated within each
contributing component — the sources lists returned by `search_brand`,
`identify_competitors` and `detect_trends` each contain no two entries
with the same URL — but the coordinator concatenates component source
lists without cross-component dedup, so `AggregateResearch.sources` may
repeat a URL across components. -/
theorem c3_componentwise_url_dedup :
    (∀ (web : String → List SearchResult) (brand_name : String) (max_results : Nat),
      ((search_brand web brand_name max_results).sources.map (fun s => s.url)).Nodup) ∧
    (∀ (rnd : Nat → Nat) (web : String → List SearchResult) (brand_name : String)
       (category : Option String),
      ((identify_competitors rnd web brand_name category).sources.map (fun s => s.url)).Nodup) ∧
    (∀ (web : String → List SearchResult) (brand_name : String) (category : Option String),
      ((detect_trends web brand_name category).sources.map (fun s => s.url)).Nodup) :=
  ⟨search_brand_sources_nodup, identify_competitors_sources_nodup, detect_trends_sources_nodup⟩

/-! ## Coordinator step lemmas (claims C1, C7, C9) -/

theorem erStep1_anyOk (e : Except String WikiOut) (st : RState) :
    (erStep1 e st).anyOk = (st.anyOk || wikiOkB e) := by
  cases e with
  | error e => simp [erStep1, wikiOkB]
  | ok w => cases hw : w.success <;> simp [erStep1, wikiOkB, hw]

theorem erStep3_anyOk (website : String → Except String WebsiteOut) (official : Option String)
    (st : RState) :
    (erStep3 website official st).anyOk = (st.anyOk || websiteOkB website official) := by
  cases official with
  | none => simp [erStep3, websiteOkB]
  | some u =>
    cases hw : website u with
    | error e => simp [erStep3, websiteOkB, hw]
    | ok w => cases hs : w.success <;> simp [erStep3, websiteOkB, hw, hs]

theorem erStep4_anyOk (e : Except String SearchBrandOut) (st : RState) :
    (erStep4 e st).anyOk = (st.anyOk || searchOkB e) := by
  cases e with
  | error e => simp [erStep4, searchOkB]
  | ok s =>
    cases hs : s.success <;> cases he : s.results.isEmpty <;>
      cases hr : s.partial_failures.any (fun f => subS "rate limiting" f.error) <;>
      simp [erStep4, searchOkB, hs, he, hr]

theorem erStep5_anyOk (include_competitors : Bool) (e : Except String CompOut)
    (brand_name : String) (st : RState) :
    (erStep5 include_competitors e brand_name st).anyOk =
      (st.anyOk || compOkB include_competitors e) := by
  cases include_competitors with
  | false => simp [erStep5, compOkB]
  | true =>
    cases e with
    | error e => simp [erStep5, compOkB]
    | ok c =>
      cases hs : c.success <;> cases he : c.competitors.isEmpty <;>
        cases h202 : subS "DuckDuckGo returned 202 status" (pyStrOfErr c.error) <;>
        simp [erStep5, compOkB, hs, he, h202]

theorem erStep6_anyOk (include_trends : Bool) (e : Except String TrendOut)
    (brand_name : String) (st : RState) :
    (erStep6 include_trends e brand_name st).anyOk =
      (st.anyOk || trendOkB include_trends e) := by
  cases include_trends with
  | false => simp [erStep6, trendOkB]
  | true =>
    cases e with
    | error e => simp [erStep6, trendOkB]
    | ok t =>
      cases hs : t.success <;> cases he : t.trends.isEmpty <;>
        cases h202 : subS "DuckDuckGo returned 202 status" (pyStrOfErr t.error) <;>
        simp [erStep6, trendOkB, hs, he, h202]

theorem erStep7_anyOk (website : String → Except String WebsiteOut) (brand_name : String)
    (official : Option String) (st : RState) :
    (erStep7 website brand_name official st).anyOk =
      (st.anyOk || (official.isSome && fallbackOkB website brand_name)) := by
  cases official with
  | none => simp [erStep7]
  | some u =>
    cases ha : st.anyOk with
    | true => simp [erStep7, ha]
    | false =>
      cases hw : website ("www." ++ removeSpaces (lowerS brand_name) ++ ".com") with
      | error e => simp [erStep7, fallbackOkB, ha, hw]
      | ok w => cases hs : w.success <;> simp [erStep7, fallbackOkB, ha, hw, hs]

/-- The coordinator's `any_source_successful` flag is exactly the
disjunction of the seven merge conditions. -/
theorem researchCore_anyOk (env : Env) (brand_name : String)
    (include_competitors include_trends : Bool) :
    (researchCore env brand_name include_competitors include_trends).anyOk =
      contributes env brand_name include_competitors include_trends := by
  simp only [researchCore, erStep7_anyOk, erStep6_anyOk, erStep5_anyOk, erStep4_anyOk,
    erStep3_anyOk, erStep1_anyOk, rInit, contributes, Bool.false_or, Bool.or_assoc]

theorem research_brand_success (env : Env) (brand_name : String)
    (category country : Option String) (include_competitors include_trends : Bool) :
    (research_brand env brand_name category country include_competitors include_trends).success =
      (researchCore env brand_name include_competitors include_trends).anyOk := by
  cases h : (researchCore env brand_name include_competitors include_trends).anyOk <;>
    simp [research_brand, h]

theorem research_brand_fields (env : Env) (brand_name : String)
    (category country : Option String) (include_competitors include_trends : Bool) :
    (research_brand env brand_name category country include_competitors include_trends).sources =
      (researchCore env brand_name include_competitors include_trends).sources ∧
    (research_brand env brand_name category country include_competitors include_trends).raw_text =
      (researchCore env brand_name include_competitors include_trends).raw_text ∧
    (research_brand env brand_name category country include_competitors
      include_trends).partial_failures =
      (researchCore env brand_name include_competitors include_trends).partial_failures ∧
    (research_brand env brand_name category country include_competitors
      include_trends).basic_search_results =
      (researchCore env brand_name include_competitors include_trends).basic_search_results := by
  cases h : (researchCore env brand_name include_competitors include_trends).anyOk <;>
    simp [research_brand, h]

/-- C1: the aggregate's `success` is true iff at least one research
source contributed usable text (the disjunction of the step merge
conditions); when `success` is false the result carries no
`document_path`; and `partial_failures` can be non-empty while `success`
is true (the concrete degraded run `cexEnvPartial`). -/
theorem c1_success_iff_any_source :
    (∀ (env : Env) (brand_name : String) (category country : Option String)
       (include_competitors include_trends : Bool),
      ((research_brand env brand_name category country include_competitors
          include_trends).success = true ↔
        contributes env brand_name include_competitors include_trends = true) ∧
      ((research_brand env brand_name category country include_competitors
          include_trends).success = false →
        (research_brand env brand_name category country include_competitors
          include_trends).document_path = none)) ∧
    ((research_brand cexEnvPartial "acme" none none true true).success = true ∧
      (research_brand cexEnvPartial "acme" none none true true).partial_failures ≠ []) := by
  constructor
  · intro env brand_name category country include_competitors include_trends
    constructor
    · rw [research_brand_success, researchCore_anyOk]
    · intro h
      have hco : (researchCore env brand_name include_competitors include_trends).anyOk = false := by
        rw [← research_brand_success env brand_name category country include_competitors
          include_trends]
        exact h
      simp [research_brand, hco]
  · exact ⟨by decide, by decide⟩

theorem c1_success_iff_any_source_witness :
    (research_brand cexEnvAllFail "acme" none none true true).success = false ∧
      (research_brand cexEnvAllFail "acme" none none true true).document_path = none :=
  ⟨by decide,
   (c1_success_iff_any_source.1 cexEnvAllFail "acme" none none true true).2 (by decide)⟩

/-! ## Step monotonicity lemmas (claims C7, C9) -/

theorem subS_of_data_infix {n h : String} (hinf : n.data <:+: h.data) : subS n h = true := by
  rcases List.infix_iff_prefix_suffix.mp hinf with ⟨t, hp, hsuf⟩
  rw [subS, subL, List.any_eq_true]
  exact ⟨t, (List.mem_tails _ _).mpr hsuf, List.isPrefixOf_iff_prefix.mpr hp⟩

theorem erStep5_keeps (include_competitors : Bool) (e : Except String CompOut)
    (brand_name : String) (st : RState) :
    (erStep5 include_competitors e brand_name st).basic_search_results =
      st.basic_search_results ∧
    (∃ d, (erStep5 include_competitors e brand_name st).sources = st.sources ++ d) ∧
    (∃ d, (erStep5 include_competitors e brand_name st).raw_text = st.raw_text ++ d) ∧
    (∃ d, (erStep5 include_competitors e brand_name st).partial_failures =
      st.partial_failures ++ d) := by
  cases include_competitors with
  | false =>
    exact ⟨rfl, ⟨[], by simp [erStep5]⟩, ⟨"", by simp [erStep5, String.append_empty]⟩,
      ⟨[], by simp [erStep5]⟩⟩
  | true =>
    cases e with
    | error e =>
      exact ⟨rfl, ⟨[], by simp [erStep5]⟩, ⟨"", by simp [erStep5, String.append_empty]⟩,
        ⟨[⟨"competitors", some e⟩], by simp [erStep5]⟩⟩
    | ok c =>
      by_cases h1 : c.success && !c.competitors.isEmpty
      · exact ⟨by simp [erStep5, h1], ⟨c.sources, by simp [erStep5, h1]⟩,
          ⟨"\n\n=== COMPETITOR ANALYSIS ===\n" ++ c.text,
            by simp [erStep5, h1, String.append_assoc]⟩,
          ⟨[], by simp [erStep5, h1]⟩⟩
      · by_cases h202 : subS "DuckDuckGo returned 202 status" (pyStrOfErr c.error)
        · exact ⟨by simp [erStep5, h1, h202], ⟨[], by simp [erStep5, h1, h202]⟩,
            ⟨"\n\n=== COMPETITOR ANALYSIS ===\nCompetitor Analysis for " ++
              (brand_name ++ (":\n\nNo clear competitors found for " ++ (brand_name ++ "\n"))),
              by simp [erStep5, h1, h202, String.append_assoc]⟩,
            ⟨[⟨"competitors", c.error⟩], by simp [erStep5, h1, h202]⟩⟩
        · exact ⟨by simp [erStep5, h1, h202], ⟨[], by simp [erStep5, h1, h202]⟩,
            ⟨"", by simp [erStep5, h1, h202, String.append_empty]⟩,
            ⟨[⟨"competitors", c.error⟩], by simp [erStep5, h1, h202]⟩⟩

theorem erStep6_keeps (include_trends : Bool) (e : Except String TrendOut)
    (brand_name : String) (st : RState) :
    (erStep6 include_trends e brand_name st).basic_search_results = st.basic_search_results ∧
    (∃ d, (erStep6 include_trends e brand_name st).sources = st.sources ++ d) ∧
    (∃ d, (erStep6 include_trends e brand_name st).raw_text = st.raw_text ++ d) ∧
    (∃ d, (erStep6 include_trends e brand_name st).partial_failures =
      st.partial_failures ++ d) := by
  cases include_trends with
  | false =>
    exact ⟨rfl, ⟨[], by simp [erStep6]⟩, ⟨"", by simp [erStep6, String.append_empty]⟩,
      ⟨[], by simp [erStep6]⟩⟩
  | true =>
    cases e with
    | error e =>
      exact ⟨rfl, ⟨[], by simp [erStep6]⟩, ⟨"", by simp [erStep6, String.append_empty]⟩,
        ⟨[⟨"trends", some e⟩], by simp [erStep6]⟩⟩
    | ok t =>
      by_cases h1 : t.success && !t.trends.isEmpty
      · exact ⟨by simp [erStep6, h1], ⟨t.sources, by simp [erStep6, h1]⟩,
          ⟨"\n\n=== INDUSTRY TRENDS ===\n" ++ t.text,
            by simp [erStep6, h1, String.append_assoc]⟩,
          ⟨[], by simp [erStep6, h1]⟩⟩
      · by_cases h202 : subS "DuckDuckGo returned 202 status" (pyStrOfErr t.error)
        · exact ⟨by simp [erStep6, h1, h202], ⟨[], by simp [erStep6, h1, h202]⟩,
            ⟨"\n\n=== INDUSTRY TRENDS ===\nTrend Analysis for " ++
              (brand_name ++ (":\n\nNo clear trends found for " ++ (brand_name ++ "\n"))),
              by simp [erStep6, h1, h202, String.append_assoc]⟩,
            ⟨[⟨"trends", t.error⟩], by simp [erStep6, h1, h202]⟩⟩
        · exact ⟨by simp [erStep6, h1, h202], ⟨[], by simp [erStep6, h1, h202]⟩,
            ⟨"", by simp [erStep6, h1, h202, String.append_empty]⟩,
            ⟨[⟨"trends", t.error⟩], by simp [erStep6, h1, h202]⟩⟩

theorem erStep7_keeps (website : String → Except String WebsiteOut) (brand_name : String)
    (official : Option String) (st : RState) :
    (erStep7 website brand_name official st).basic_search_results = st.basic_search_results ∧
    (∃ d, (erStep7 website brand_name official st).sources = st.sources ++ d) ∧
    (∃ d, (erStep7 website brand_name official st).raw_text = st.raw_text ++ d) ∧
    (erStep7 website brand_name official st).partial_failures = st.partial_failures := by
  by_cases hcond : !st.anyOk && official.isSome
  · rw [erStep7, if_pos hcond]
    cases hw : website ("www." ++ removeSpaces (lowerS brand_name) ++ ".com") with
    | error e => exact ⟨rfl, ⟨[], by simp⟩, ⟨"", by simp [String.append_empty]⟩, rfl⟩
    | ok w =>
      by_cases hs : w.success
      · exact ⟨by simp [hs], ⟨[⟨"website", w.url, none⟩], by simp [hs]⟩,
          ⟨"\n\n=== WEBSITE INFORMATION ===\n" ++ w.text, by simp [hs, String.append_assoc]⟩,
          by simp [hs]⟩
      · exact ⟨by simp [hs], ⟨[], by simp [hs]⟩, ⟨"", by simp [hs, String.append_empty]⟩,
          by simp [hs]⟩
  · rw [erStep7, if_neg hcond]
    exact ⟨rfl, ⟨[], by simp⟩, ⟨"", by simp [String.append_empty]⟩, rfl⟩

/-- Step 4 under rate-limited failure with partial results: the partial
results are merged and the failure recorded. -/
theorem erStep4_rate (s : SearchBrandOut) (st : RState) (h1 : s.success = false)
    (h2 : s.results.isEmpty = false)
    (h3 : s.partial_failures.any (fun f => subS "rate limiting" f.error) = true) :
    erStep4 (.ok s) st =
      { st with basic_search_results := some s.results
                sources := st.sources ++ s.sources
                raw_text := st.raw_text ++ "\n\n=== SEARCH RESULTS (Partial) ===\n" ++ s.text
                anyOk := true
                partial_failures := st.partial_failures ++ [⟨"search", s.error⟩] } := by
  simp [erStep4, h1, h2, h3]

/-- C7: in step 4 of `research_brand`, when the broader search pass
fails with a partial-failure reason mentioning rate limiting and partial
results exist, the partial results are still merged into the aggregate
(search results stored, sources extended, partial text section appended,
`any_source_successful` set — so the aggregate succeeds) and the failure
is recorded in `partial_failures`. -/
theorem c7_rate_limited_partial_merge :
    ∀ (env : Env) (brand_name : String) (category country : Option String)
      (include_competitors include_trends : Bool) (s : SearchBrandOut),
      env.search = .ok s → s.success = false → s.results ≠ [] →
      s.partial_failures.any (fun f => subS "rate limiting" f.error) = true →
      (research_brand env brand_name category country include_competitors
        include_trends).success = true ∧
      (research_brand env brand_name category country include_competitors
        include_trends).basic_search_results = some s.results ∧
      (∃ pre post, (research_brand env brand_name category country include_competitors
        include_trends).sources = pre ++ s.sources ++ post) ∧
      subS ("\n\n=== SEARCH RESULTS (Partial) ===\n" ++ s.text)
        (research_brand env brand_name category country include_competitors
          include_trends).raw_text = true ∧
      (⟨"search", s.error⟩ : Failure) ∈
        (research_brand env brand_name category country include_competitors
          include_trends).partial_failures := by
  intro env brand_name category country iC iT s hs hsucc hres hrate
  have he : s.results.isEmpty = false := by
    cases hx : s.results with
    | nil => exact absurd hx hres
    | cons a l => simp
  have hcore : researchCore env brand_name iC iT =
      erStep7 env.website brand_name (officialUrl env.webQuery brand_name)
        (erStep6 iT env.trends brand_name
          (erStep5 iC env.competitors brand_name
            (erStep4 env.search
              (erStep3 env.website (officialUrl env.webQuery brand_name)
                (erStep1 env.wiki rInit))))) := rfl
  have h4 := erStep4_rate s
    (erStep3 env.website (officialUrl env.webQuery brand_name) (erStep1 env.wiki rInit))
    hsucc he hrate
  obtain ⟨k5b, ⟨d5s, k5s⟩, ⟨d5r, k5r⟩, ⟨d5p, k5p⟩⟩ :=
    erStep5_keeps iC env.competitors brand_name
      (erStep4 env.search
        (erStep3 env.website (officialUrl env.webQuery brand_name) (erStep1 env.wiki rInit)))
  obtain ⟨k6b, ⟨d6s, k6s⟩, ⟨d6r, k6r⟩, ⟨d6p, k6p⟩⟩ :=
    erStep6_keeps iT env.trends brand_name
      (erStep5 iC env.competitors brand_name
        (erStep4 env.search
          (erStep3 env.website (officialUrl env.webQuery brand_name) (erStep1 env.wiki rInit))))
  obtain ⟨k7b, ⟨d7s, k7s⟩, ⟨d7r, k7r⟩, k7p⟩ :=
    erStep7_keeps env.website brand_name (officialUrl env.webQuery brand_name)
      (erStep6 iT env.trends brand_name
        (erStep5 iC env.competitors brand_name
          (erStep4 env.search
            (erStep3 env.website (officialUrl env.webQuery brand_name)
              (erStep1 env.wiki rInit)))))
  obtain ⟨fs, fr, fp, fb⟩ :=
    research_brand_fields env brand_name category country iC iT
  refine ⟨?_, ?_, ?_, ?_, ?_⟩
  · rw [research_brand_success, researchCore_anyOk]
    simp [contributes, searchOkB, hs, he, hrate]
  · rw [fb, hcore, k7b, k6b, k5b, hs, h4]
  · refine ⟨(erStep3 env.website (officialUrl env.webQuery brand_name)
      (erStep1 env.wiki rInit)).sources, d5s ++ d6s ++ d7s, ?_⟩
    rw [fs, hcore, k7s, k6s, k5s, hs, h4]
    simp [List.append_assoc]
  · rw [fr, hcore, k7r, k6r, k5r, hs, h4]
    apply subS_of_data_infix
    simp only [String.data_append, List.append_assoc]
    refine List.infix_iff_prefix_suffix.mpr
      ⟨"\n\n=== SEARCH RESULTS (Partial) ===\n".data ++
        (s.text.data ++ (d5r.data ++ (d6r.data ++ d7r.data))), ?_, ?_⟩
    · rw [← List.append_assoc]
      exact List.prefix_append _ _
    · exact List.suffix_append _ _
  · rw [fp, hcore, k7p, k6p, k5p, hs, h4]
    simp

theorem c7_rate_limited_partial_merge_witness :
    (cexEnvC7.search = .ok ⟨false, some "DuckDuckGo rate limiting",
        [⟨"T", "http://s.example", "s.example", "snip"⟩], "partial search text",
        [⟨"search", "http://s.example", some "acme official website"⟩],
        [⟨"acme company about", "DuckDuckGo search failed by rate limiting"⟩]⟩) ∧
    (research_brand cexEnvC7 "acme" none none true true).success = true ∧
    (⟨"search", some "DuckDuckGo rate limiting"⟩ : Failure) ∈
      (research_brand cexEnvC7 "acme" none none true true).partial_failures := by
  have h := c7_rate_limited_partial_merge cexEnvC7 "acme" none none true true
    ⟨false, some "DuckDuckGo rate limiting",
      [⟨"T", "http://s.example", "s.example", "snip"⟩], "partial search text",
      [⟨"search", "http://s.example", some "acme official website"⟩],
      [⟨"acme company about", "DuckDuckGo search failed by rate limiting"⟩]⟩
    rfl rfl (by decide) (by decide)
  exact ⟨rfl, h.1, h.2.2.2.2⟩

/-! ## Invariance lemmas for claim C9 -/

theorem erStep6_raw_congr (include_trends : Bool) (e : Except String TrendOut)
    (brand_name : String) (st st2 : RState) (h : st.raw_text = st2.raw_text) :
    (erStep6 include_trends e brand_name st).raw_text =
      (erStep6 include_trends e brand_name st2).raw_text := by
  cases include_trends with
  | false => simpa [erStep6] using h
  | true =>
    cases e with
    | error e => simpa [erStep6] using h
    | ok t =>
      by_cases h1 : t.success && !t.trends.isEmpty
      · simp [erStep6, h1, h]
      · by_cases h202 : subS "DuckDuckGo returned 202 status" (pyStrOfErr t.error) <;>
          simp [erStep6, h1, h202, h]

theorem erStep7_raw_congr (website : String → Except String WebsiteOut) (brand_name : String)
    (official : Option String) (st st2 : RState) (h : st.raw_text = st2.raw_text)
    (ha : st.anyOk = st2.anyOk) :
    (erStep7 website brand_name official st).raw_text =
      (erStep7 website brand_name official st2).raw_text := by
  have hcond : (!st2.anyOk && official.isSome) = (!st.anyOk && official.isSome) := by rw [ha]
  by_cases hc : !st.anyOk && official.isSome
  · rw [erStep7, erStep7, if_pos hc, if_pos (by rw [hcond]; exact hc)]
    cases hw : website ("www." ++ removeSpaces (lowerS brand_name) ++ ".com") with
    | error e => exact h
    | ok w =>
      by_cases hs : w.success
      · simp [hs, h]
      · simp [hs, h]
  · rw [erStep7, erStep7, if_neg hc, if_neg (by rw [hcond]; exact hc)]
    exact h

/-- Step 5 on a successful-but-empty competitor outcome records the
failure and changes nothing else of the state. -/
theorem erStep5_empty (c : CompOut) (brand_name : String) (st : RState)
    (hemp : c.competitors = []) (herr : c.error = none) :
    erStep5 true (.ok c) brand_name st =
      { st with partial_failures := st.partial_failures ++ [⟨"competitors", none⟩] } := by
  have hns : subS "DuckDuckGo returned 202 status" (pyStrOfErr (none : Option String)) = false := by
    decide
  simp [erStep5, hemp, herr, hns]

/-- Step 5 ignores the `success` flag when the competitor list is empty. -/
theorem erStep5_empty_success_irrelevant (c : CompOut) (brand_name : String) (st : RState)
    (hemp : c.competitors = []) :
    erStep5 true (.ok c) brand_name st =
      erStep5 true (.ok { c with success := false }) brand_name st := by
  simp [erStep5, hemp]

/-- C9: when `identify_competitors` returns `success == true` with an
empty competitor list, the coordinator treats it exactly like a failed
source: the run equals the run in which the outcome had
`success == false`, an entry `("competitors", error)` is recorded in
`partial_failures`, and (when `error` is `None`, as a successful outcome
has it) no competitor section is appended — the raw text equals that of
the run with `include_competitors=False`. -/
theorem c9_empty_competitors_failed_source :
    ∀ (env : Env) (brand_name : String) (category country : Option String)
      (include_trends : Bool) (c : CompOut),
      env.competitors = .ok c → c.success = true → c.competitors = [] →
      (research_brand env brand_name category country true include_trends =
        research_brand { env with competitors := .ok { c with success := false } }
          brand_name category country true include_trends) ∧
      ((⟨"competitors", c.error⟩ : Failure) ∈
        (research_brand env brand_name category country true include_trends).partial_failures) ∧
      (c.error = none →
        (research_brand env brand_name category country true include_trends).raw_text =
          (research_brand env brand_name category country false include_trends).raw_text) := by
  intro env brand_name category country iT c heq hsucc hemp
  have hproj1 : ({ env with competitors := .ok { c with success := false } } : Env).wiki =
    env.wiki := rfl
  have hproj2 : ({ env with competitors := .ok { c with success := false } } : Env).webQuery =
    env.webQuery := rfl
  have hproj3 : ({ env with competitors := .ok { c with success := false } } : Env).website =
    env.website := rfl
  have hproj4 : ({ env with competitors := .ok { c with success := false } } : Env).search =
    env.search := rfl
  have hproj5 : ({ env with competitors := .ok { c with success := false } } : Env).competitors =
    .ok { c with success := false } := rfl
  have hproj6 : ({ env with competitors := .ok { c with success := false } } : Env).trends =
    env.trends := rfl
  have hproj7 : ({ env with competitors := .ok { c with success := false } } : Env).docSave =
    env.docSave := rfl
  have hcore : researchCore env brand_name true iT =
      researchCore { env with competitors := .ok { c with success := false } }
        brand_name true iT := by
    simp only [researchCore, hproj1, hproj2, hproj3, hproj4, hproj5, hproj6]
    rw [heq, erStep5_empty_success_irrelevant c brand_name _ hemp]
  refine ⟨?_, ?_, ?_⟩
  · simp only [research_brand, hcore, hproj7]
  · have h5pf : ∀ st : RState, (erStep5 true (.ok c) brand_name st).partial_failures =
        st.partial_failures ++ [⟨"competitors", c.error⟩] := by
      intro st
      have he : c.competitors.isEmpty = true := by simp [hemp]
      by_cases h202 : subS "DuckDuckGo returned 202 status" (pyStrOfErr c.error) <;>
        simp [erStep5, he, h202]
    have hcore2 : researchCore env brand_name true iT =
        erStep7 env.website brand_name (officialUrl env.webQuery brand_name)
          (erStep6 iT env.trends brand_name
            (erStep5 true env.competitors brand_name
              (erStep4 env.search
                (erStep3 env.website (officialUrl env.webQuery brand_name)
                  (erStep1 env.wiki rInit))))) := rfl
    obtain ⟨-, -, -, ⟨d6p, k6p⟩⟩ :=
      erStep6_keeps iT env.trends brand_name
        (erStep5 true env.competitors brand_name
          (erStep4 env.search
            (erStep3 env.website (officialUrl env.webQuery brand_name)
              (erStep1 env.wiki rInit))))
    obtain ⟨-, -, -, k7p⟩ :=
      erStep7_keeps env.website brand_name (officialUrl env.webQuery brand_name)
        (erStep6 iT env.trends brand_name
          (erStep5 true env.competitors brand_name
            (erStep4 env.search
              (erStep3 env.website (officialUrl env.webQuery brand_name)
                (erStep1 env.wiki rInit)))))
    rw [(research_brand_fields env brand_name category country true iT).2.2.1, hcore2, k7p, k6p]
    rw [heq, h5pf]
    simp
  · intro herr
    set st4 := erStep4 env.search
        (erStep3 env.website (officialUrl env.webQuery brand_name)
          (erStep1 env.wiki rInit)) with hst4
    have hcoreT : researchCore env brand_name true iT =
        erStep7 env.website brand_name (officialUrl env.webQuery brand_name)
          (erStep6 iT env.trends brand_name
            (erStep5 true env.competitors brand_name st4)) := rfl
    have hcoreF : researchCore env brand_name false iT =
        erStep7 env.website brand_name (officialUrl env.webQuery brand_name)
          (erStep6 iT env.trends brand_name st4) := rfl
    have h5id : erStep5 true (.ok c) brand_name st4 =
        { st4 with partial_failures := st4.partial_failures ++ [⟨"competitors", none⟩] } :=
      erStep5_empty c brand_name st4 hemp herr
    rw [(research_brand_fields env brand_name category country true iT).2.1,
      (research_brand_fields env brand_name category country false iT).2.1, hcoreT, hcoreF,
      heq, h5id]
    have h6r := erStep6_raw_congr iT env.trends brand_name
      ({ st4 with partial_failures := st4.partial_failures ++ [⟨"competitors", none⟩] }) st4 rfl
    have h6a : (erStep6 iT env.trends brand_name
        { st4 with partial_failures := st4.partial_failures ++ [⟨"competitors", none⟩] }).anyOk =
        (erStep6 iT env.trends brand_name st4).anyOk := by
      rw [erStep6_anyOk, erStep6_anyOk]
    exact erStep7_raw_congr env.website brand_name (officialUrl env.webQuery brand_name)
      _ _ h6r h6a

theorem c9_empty_competitors_failed_source_witness :
    (cexEnvC9.competitors = .ok ⟨true, [], [],
      "Competitor Analysis for acme:\n\nNo clear competitors found for acme\n", none⟩) ∧
    ((⟨"competitors", none⟩ : Failure) ∈
      (research_brand cexEnvC9 "acme" none none true true).partial_failures) ∧
    (research_brand cexEnvC9 "acme" none none true true).raw_text =
      (research_brand cexEnvC9 "acme" none none false true).raw_text := by
  have h := c9_empty_competitors_failed_source cexEnvC9 "acme" none none true
    ⟨true, [], [], "Competitor Analysis for acme:\n\nNo clear competitors found for acme\n", none⟩
    rfl rfl rfl
  exact ⟨rfl, h.2.1, h.2.2 rfl⟩

end MG
